import Mathlib

/-!
Verification development for the single-page web-analysis pipeline
(repository: iyashkun/Fetch).  The repository consists of successive
revisions of one request handler; we shallowly embed the three revisions
the claims reference:

* `V1` — the first half of `src/api/fetch.js` (lines 1–244);
* `V4` — the second half of `src/api/fetch.js` (lines 245–644);
* `V5` — `src/unnamed/part_000`.

JavaScript strings are Lean `String`s, JS numbers are modelled by `ℚ`
(every numeric literal in the source is a small decimal; the claims
checked here are robust to IEEE-754 rounding), JS `Map`/`Set`
accumulators are insertion-ordered association lists, and network /
browser effects are supplied by explicit environment records.
-/

/- ### Small JS-string helpers -/

/-- JS truthiness check for an optional string attribute: the attribute is
present and nonempty.  (`if (x)` on a string field.) -/
def truthyStr (s : Option String) : Option String :=
  match s with
  | some v => if v = ("") then none else some v
  | none => none

/-- `a || b` on JS strings: `b` when `a` is absent or empty. -/
def orElseStr (a : Option String) (b : String) : String :=
  match truthyStr a with
  | some v => v
  | none => b

/-- Does list `p` occur as a prefix of `s`? -/
def listIsPrefix : List Char → List Char → Bool
  | [], _ => true
  | _ :: _, [] => false
  | p :: ps, s :: ss => p = s && listIsPrefix ps ss

/-- Does `sub` occur as a contiguous substring of `s`?  (JS
`String.prototype.includes`.) -/
def listContainsSub (sub : List Char) : List Char → Bool
  | [] => listIsPrefix sub []
  | c :: rest => listIsPrefix sub (c :: rest) || listContainsSub sub rest

/-- JS `s.includes(sub)`. -/
def containsSub (s sub : String) : Bool :=
  listContainsSub sub.toList s.toList

/-- JS `s.endsWith(suffix)`. -/
def endsWithStr (s suf : String) : Bool :=
  listIsPrefix suf.toList.reverse s.toList.reverse

/-- JS `str.substring(a, b)` (with clamping) for `a ≤ b`. -/
def substringJS (s : List Char) (a b : Nat) : String :=
  String.mk ((s.drop a).take (b - a))

/-- JS `s.trim()` (list-based so that proofs can evaluate it). -/
def trimJS (s : String) : String :=
  String.mk (((s.toList.dropWhile Char.isWhitespace).reverse.dropWhile
    Char.isWhitespace).reverse)

/-- JS `s.toLowerCase()`. -/
def toLowerJS (s : String) : String := String.mk (s.toList.map Char.toLower)

/-- JS `s.toUpperCase()`. -/
def toUpperJS (s : String) : String := String.mk (s.toList.map Char.toUpper)

/-- JS `s.startsWith(p)`. -/
def startsWithJS (s p : String) : Bool := listIsPrefix p.toList s.toList

/-- JS `s.length` (for the ASCII inputs considered, UTF-16 units =
code points). -/
def lenJS (s : String) : Nat := s.toList.length

/-- JS `s.split(c)` for a single-character separator. -/
def splitOnCharAux (c : Char) : List Char → List Char → List String
  | [], acc => [String.mk acc.reverse]
  | x :: rest, acc =>
      if x = c then String.mk acc.reverse :: splitOnCharAux c rest []
      else splitOnCharAux c rest (x :: acc)

def splitOnChar (c : Char) (s : String) : List String :=
  splitOnCharAux c s.toList []

/-- Case-insensitive `includes` (a JS `/…/i.test`). -/
def containsSubCI (s sub : String) : Bool :=
  containsSub (toLowerJS s) (toLowerJS sub)

/- ### A fragment of the WHATWG URL parser

The source delegates URL parsing to the platform's `URL` class
(`new URL(u)` / `new URL(ref, base)`), which the spec treats as external
plumbing.  We model the fragment actually exercised: absolute
`scheme://host[:port]/path` forms for the special schemes http/https
(empty or malformed hosts throw, i.e. return `none`), opaque forms for
other schemes, and resolution of root-relative, scheme-relative,
path-relative, query and fragment references against an http(s) base. -/

def isSchemeChar (c : Char) : Bool :=
  c.isAlpha || c.isDigit || c = '+' || c = '-' || c = '.'

/-- Split a leading `scheme:` off a URL string; `none` when the string
has no scheme. -/
def splitScheme (s : List Char) : Option (String × List Char) :=
  let sp := s.span isSchemeChar
  match sp.2 with
  | c :: rest =>
      if c = ':' ∧ (sp.1.head?.map Char.isAlpha).getD false then
        some (String.mk (sp.1.map Char.toLower), rest)
      else none
  | [] => none

/-- Characters we accept in a host name; anything else makes the parse
fail (as the platform parser rejects spaces, brackets, etc.). -/
def isHostChar (c : Char) : Bool :=
  c.isAlphanum || c = '-' || c = '.' || c = '_'

/-- Parse `host[:port]path` (the part after `scheme://`) for a special
scheme; returns the serialized `(hostport, path)` or `none` (throw). -/
def parseSpecialRest (scheme : String) (r : List Char) : Option (String × String) :=
  let auth := r.takeWhile (fun c => ¬(c = '/' ∨ c = '?' ∨ c = '#'))
  let pathRest := r.drop auth.length
  -- strip userinfo: keep what follows the last '@'
  let hostport := (auth.reverse.takeWhile (fun c => c ≠ '@')).reverse
  let hp := hostport.span (fun c => c ≠ ':')
  let host := hp.1
  if host = [] ∨ ¬(host.all isHostChar) then none
  else
    let hostStr := String.mk (host.map Char.toLower)
    let portPart :=
      match hp.2 with
      | [] => some (none : Option Nat)
      | _ :: ds =>
          if ds = [] then some none
          else if ds.all Char.isDigit then
            some (some (ds.foldl (fun n c => n * 10 + (c.toNat - 48)) 0))
          else none
    match portPart with
    | none => none
    | some p =>
        let defPort : Nat := if scheme = ("https") then 443 else 80
        let portStr :=
          match p with
          | some n => if n = defPort then ("") else (":") ++ toString n
          | none => ("")
        let path :=
          match pathRest with
          | [] => ("/")
          | '/' :: _ => String.mk pathRest
          | _ => ("/") ++ String.mk pathRest
        some (hostStr ++ portStr, path)

/-- `new URL(s)` (absolute parse): the serialized `href`, or `none` when
the platform parser throws. -/
def jsUrlParse (s : String) : Option String :=
  match splitScheme s.toList with
  | none => none
  | some (scheme, rest) =>
      if scheme = ("http") ∨ scheme = ("https") then
        match rest with
        | '/' :: '/' :: r =>
            match parseSpecialRest scheme r with
            | some (hp, path) => some (scheme ++ ("://") ++ hp ++ path)
            | none => none
        | _ => none
      else some (scheme ++ (":") ++ String.mk rest)

/-- Decompose an (already serialized) http(s) base URL into scheme,
hostport and path. -/
def baseParts (base : String) : Option (String × String × String) :=
  match splitScheme base.toList with
  | none => none
  | some (scheme, rest) =>
      if scheme = ("http") ∨ scheme = ("https") then
        match rest with
        | '/' :: '/' :: r =>
            match parseSpecialRest scheme r with
            | some (hp, path) => some (scheme, hp, path)
            | none => none
        | _ => none
      else none

/-- Directory of a path: everything up to and including the last `/`. -/
def dirOfPath (p : String) : String :=
  String.mk ((p.toList.reverse.dropWhile (fun c => c ≠ '/')).reverse)

/-- Path with any query/fragment removed. -/
def stripQueryFrag (p : String) : String :=
  String.mk (p.toList.takeWhile (fun c => ¬(c = '?' ∨ c = '#')))

/-- `new URL(ref, base).href`: resolve `ref` against `base`; `none` when
the platform parser throws. -/
def resolveUrl (ref base : String) : Option String :=
  if (splitScheme ref.toList).isSome then jsUrlParse ref
  else
    match baseParts base with
    | none => none
    | some (bscheme, bhp, bpath) =>
        match ref.toList with
        | [] => jsUrlParse base
        | '/' :: '/' :: r =>
            match parseSpecialRest bscheme r with
            | some (hp, path) => some (bscheme ++ ("://") ++ hp ++ path)
            | none => none
        | '/' :: _ => some (bscheme ++ ("://") ++ bhp ++ ref)
        | '?' :: _ => some (bscheme ++ ("://") ++ bhp ++ stripQueryFrag bpath ++ ref)
        | '#' :: _ => some (bscheme ++ ("://") ++ bhp ++ bpath ++ ref)
        | _ => some (bscheme ++ ("://") ++ bhp ++ dirOfPath (stripQueryFrag bpath) ++ ref)

/- ### A small backtracking regular-expression engine

The call-site scanner applies JS regular expressions (flags `gi`) to
script text.  We embed each pattern as an explicit `RE` syntax tree and
run it with a backtracking matcher whose enumeration order realizes the
JS preference order (leftmost match; alternatives left to right; greedy
quantifiers longest-first, lazy quantifiers shortest-first; a quantified
subexpression never iterates on an empty match).  All patterns in the
source are case-insensitive, which is folded into the leaf predicates. -/

inductive RE where
  | eps : RE
  | cpred : (Char → Bool) → RE
  | seq : RE → RE → RE
  | alt : RE → RE → RE
  | star : RE → Bool → RE      -- Bool: lazy?
  | group : Nat → RE → RE

/-- Capture list: group number ↦ captured text, most recent first. -/
abbrev Caps := List (Nat × String)

/-- All parses of `re` against a prefix of `s`, each returning the
remaining suffix and the captures, in JS preference order.  `fuel`
bounds the recursion depth (structurally, so that proofs can evaluate
the matcher); a quantified subexpression never iterates without
consuming input, so `REfuel` below always suffices. -/
def REmatch : Nat → RE → List Char → Caps → List (List Char × Caps)
  | 0, _, _, _ => []
  | _ + 1, .eps, s, caps => [(s, caps)]
  | _ + 1, .cpred _, [], _ => []
  | _ + 1, .cpred p, c :: s, caps => if p c then [(s, caps)] else []
  | fuel + 1, .seq a b, s, caps =>
      (REmatch fuel a s caps).flatMap (fun sc => REmatch fuel b sc.1 sc.2)
  | fuel + 1, .alt a b, s, caps => REmatch fuel a s caps ++ REmatch fuel b s caps
  | fuel + 1, .star a lz, s, caps =>
      let one := (REmatch fuel a s caps).filter (fun sc => sc.1.length < s.length)
      let more := one.flatMap (fun sc => REmatch fuel (.star a lz) sc.1 sc.2)
      if lz then (s, caps) :: more else more ++ [(s, caps)]
  | fuel + 1, .group n a, s, caps =>
      (REmatch fuel a s caps).map
        (fun sc => (sc.1, (n, String.mk (s.take (s.length - sc.1.length))) :: sc.2))

/-- Syntactic size of a pattern. -/
def REsize : RE → Nat
  | .eps => 1
  | .cpred _ => 1
  | .seq a b => REsize a + REsize b + 1
  | .alt a b => REsize a + REsize b + 1
  | .star a _ => REsize a + 1
  | .group _ a => REsize a + 1

/-- Ample fuel for `REmatch`: along any call path, descending into the
pattern costs at most `REsize re` levels, and each star iteration (which
consumes at least one character of the at most `s.length` available)
restarts such a descent. -/
def REfuel (re : RE) (s : List Char) : Nat :=
  (REsize re + 2) * (s.length + 2)

/-- One regex match: start index, end index (both relative to the
searched suffix) and captures. -/
structure RMatch where
  idx : Nat
  stop : Nat
  caps : Caps
deriving DecidableEq

/-- Leftmost match of `re` in `suff`, searching successive start
positions (the scan a JS `exec` performs from `lastIndex`). -/
def REsearch (re : RE) : List Char → Nat → Option RMatch
  | suff, idx =>
      match (REmatch (REfuel re suff) re suff []).head? with
      | some (rest, caps) => some ⟨idx, idx + (suff.length - rest.length), caps⟩
      | none =>
          match suff with
          | [] => none
          | _ :: t => REsearch re t (idx + 1)

/-- The match loop the v4/v5 revisions run: repeated `regex.exec(code)`
where the loop body resets `regex.lastIndex = match.index + 1`.  `fuel`
bounds the number of iterations structurally; since the start position
strictly increases, `s.length + 1` iterations always suffice. -/
def execLoopReset (re : RE) : Nat → (suff : List Char) → (base : Nat) → List RMatch
  | 0, _, _ => []
  | fuel + 1, suff, base =>
      match REsearch re suff 0 with
      | none => []
      | some m =>
          ⟨base + m.idx, base + m.stop, m.caps⟩ ::
            (match suff with
             | [] => []
             | _ :: _ => execLoopReset re fuel (suff.drop (m.idx + 1)) (base + m.idx + 1))

/-- The match loop the v1 revision runs: repeated `regex.exec(code)`
with the default `lastIndex` advance to the end of the match.  (Every
pattern in the source matches at least one character, so the loop
advances; the `max` keeps the model total regardless.) -/
def execLoopAdvance (re : RE) : Nat → (suff : List Char) → (base : Nat) → List RMatch
  | 0, _, _ => []
  | fuel + 1, suff, base =>
      match REsearch re suff 0 with
      | none => []
      | some m =>
          ⟨base + m.idx, base + m.stop, m.caps⟩ ::
            (match suff with
             | [] => []
             | _ :: _ =>
                 execLoopAdvance re fuel (suff.drop (max m.stop (m.idx + 1)))
                   (base + max m.stop (m.idx + 1)))

/-- `match[g]` as the scanner reads it: group 0 is the whole match. -/
def matchGroup (code : List Char) (m : RMatch) (g : Nat) : Option String :=
  if g = 0 then some (substringJS code m.idx m.stop)
  else m.caps.lookup g

/- #### The pattern leaves used by the source's regexes -/

/-- The apostrophe character (`'`). -/
def quoteB : Char := Char.ofNat 39

/-- Case-insensitive literal character. -/
def chCI (c : Char) : RE := .cpred (fun x => x.toLower = c.toLower)

/-- Case-insensitive literal string. -/
def reLit (s : String) : RE :=
  (s.toList.map chCI).foldr .seq .eps

/-- JS `\s`. -/
def isSpaceJS (c : Char) : Bool :=
  c = ' ' || c = '\t' || c = '\n' || c = '\x0d' || c = '\x0b' || c = '\x0c'

/-- `\s*`. -/
def wsStar : RE := .star (.cpred isSpaceJS) false

/-- `["']`. -/
def reQuote : RE := .cpred (fun c => c = '"' || c = quoteB)

/-- `["']?` (greedy). -/
def reQuoteOpt : RE := .alt reQuote .eps

/-- `[^"',\s]`. -/
def urlChar : RE :=
  .cpred (fun c => ¬(c = '"' || c = quoteB || c = ',' || isSpaceJS c))

/-- `r+`. -/
def rePlus (r : RE) : RE := .seq r (.star r false)

/-- The source's `commonCapture`: `["']([^"',\s]+)["']`, capturing into
group `n`. -/
def commonCaptureRE (n : Nat) : RE :=
  .seq reQuote (.seq (.group n (rePlus urlChar)) reQuote)

/-- `.` without the `s` flag: anything but a line terminator. -/
def dotJS : RE := .cpred (fun c => ¬(c = '\n' || c = '\x0d'))

/-- `.*?` (lazy). -/
def lazyDotStar : RE := .star dotJS true

/-- `[:=]`. -/
def reColonEq : RE := .cpred (fun c => c = ':' || c = '=')

/-- `([A-Z]+)` under flag `i`, capturing into group `n`. -/
def upperGroup (n : Nat) : RE := .group n (rePlus (.cpred Char.isAlpha))

/-- Chain a list of res in sequence. -/
def reSeqL (l : List RE) : RE := l.foldr .seq .eps

/- ### Data model: parsed page markup and candidate items

The extractors consume the result of cheerio selector queries over the
fetched markup.  We embed the page at that interface: each field holds,
in document order, what the corresponding selector loop iterates over. -/

/-- An anchor as seen by `$("a[href]")` / `$("article a[href]")`:
its `href` attribute, its text, its `title` attribute, and whether
`$(a).closest(".post, .entry, .article, .news-item")` is nonempty. -/
structure Anchor where
  href : String
  text : String
  titleAttr : Option String
  inPostContainer : Bool
deriving DecidableEq, Repr

/-- A feed `<link>` (`rel`/`type` rss or atom). -/
structure FeedLink where
  href : Option String
  titleAttr : Option String
deriving DecidableEq, Repr

/-- One object of a parsed JSON-LD block (fields the extractor reads;
absent or falsy fields are `none`). -/
structure JsonLdObj where
  atType : Option String
  typeField : Option String
  urlField : Option String
  mainEntityOfPage : Option String
  headline : Option String
  nameField : Option String
deriving DecidableEq, Repr

/-- Parsed page markup, at the cheerio-query interface. -/
structure Page where
  feedLinks : List FeedLink
  articleAnchors : List Anchor
  /-- one entry per `script[type="application/ld+json"]` block: `none`
  when the block is empty or `JSON.parse` throws, otherwise the array of
  objects (a non-array payload is the singleton list). -/
  jsonLdBlocks : List (Option (List JsonLdObj))
  ogUrl : Option String
  ogTitle : Option String
  anchors : List Anchor
  inlineScripts : List String
  scriptSrcs : List String

/-- A network-call candidate as emitted by the scanners.  `context` and
`score` are optional because the v1 revision's items carry no `score`
and the v4 dynamic items carry no `context`; the serialized-JSON set
dedup of the source is record equality here.

Scores are JS numbers; every score literal in the source is a multiple
of 0.05, and score arithmetic only adds such literals and takes `min`,
so we model scores exactly in hundredths (`score = 70` means 0.70).
The IEEE-754 evaluation of the source orders these values the same
way. -/
structure NetItem where
  url : String
  method : String
  context : Option String
  score : Option Nat
deriving DecidableEq, Repr

/-- `results.add(JSON.stringify(item))` on the insertion-ordered `Set`:
append unless an identical item is present. -/
def addItem (l : List NetItem) (x : NetItem) : List NetItem :=
  if x ∈ l then l else l ++ [x]

/-- A content candidate (the `results` map values of `extractPosts`);
`score` again in hundredths. -/
structure PostItem where
  title : String
  href : String
  source : String
  score : Nat
deriving DecidableEq, Repr

/-- The content registry: a JS `Map` keyed by resolved URL, i.e. an
insertion-ordered association list. -/
abbrev Registry := List (String × PostItem)

/-- `results.set(k, v)`: overwrite in place when the key exists,
otherwise append. -/
def setEntry (reg : Registry) (k : String) (v : PostItem) : Registry :=
  if reg.any (fun kv => kv.1 = k) then
    reg.map (fun kv => if kv.1 = k then (k, v) else kv)
  else reg ++ [(k, v)]

/-- `results.has(k)`. -/
def hasKey (reg : Registry) (k : String) : Bool :=
  reg.any (fun kv => kv.1 = k)

/-- `x || y` on plain JS strings. -/
def jsOrStr (a b : String) : String := if a = ("") then b else a

/- ### The content extractor (`extractPosts`, identical in v4 and v5)

Five detectors populate the registry in source order: feed links,
article anchors, JSON-LD, OpenGraph, heuristic anchors.  The first four
wrap URL resolution in `try … catch {}`; the heuristic detector does
not, so a resolution failure there propagates out of `extractPosts`
(modelled by `Except.error`). -/

/-- Feed-link detector (`link[type="application/rss+xml"], …`). -/
def rssStage (base : String) (links : List FeedLink) (reg : Registry) : Registry :=
  links.foldl (fun reg fl =>
    match truthyStr fl.href with
    | none => reg
    | some h =>
        match resolveUrl h base with
        | none => reg
        | some full =>
            setEntry reg full
              { title := orElseStr fl.titleAttr ("RSS/Atom feed"),
                href := full, source := ("rss"), score := 80 }) reg

/-- Article-anchor detector (`article a[href]`). -/
def articleStage (base : String) (ancs : List Anchor) (reg : Registry) : Registry :=
  ancs.foldl (fun reg a =>
    let title := jsOrStr (trimJS a.text) (orElseStr a.titleAttr (""))
    if a.href ≠ ("") ∧ lenJS title > 5 then
      match resolveUrl a.href base with
      | none => reg
      | some full =>
          if hasKey reg full then reg
          else
            setEntry reg full
              { title := title, href := full, source := ("article"), score := 90 }
    else reg) reg

/-- `/(Article|BlogPosting|NewsArticle)/i.test(type)` (a substring
test). -/
def isArticleType (t : String) : Bool :=
  containsSubCI t ("article") || containsSubCI t ("blogposting") ||
    containsSubCI t ("newsarticle")

/-- JSON-LD detector (`script[type="application/ld+json"]`). -/
def jsonLdStage (base : String) (blocks : List (Option (List JsonLdObj)))
    (reg : Registry) : Registry :=
  blocks.foldl (fun reg blk =>
    match blk with
    | none => reg
    | some objs =>
        objs.foldl (fun reg obj =>
          match (truthyStr obj.atType).orElse (fun _ => truthyStr obj.typeField) with
          | none => reg
          | some t =>
              if ¬ isArticleType t then reg
              else
                let urlProp := (truthyStr obj.urlField).orElse
                  (fun _ => truthyStr obj.mainEntityOfPage)
                let title := orElseStr obj.headline (orElseStr obj.nameField (""))
                match urlProp with
                | none => reg
                | some u =>
                    if title = ("") then reg
                    else
                      match resolveUrl u base with
                      | none => reg
                      | some full =>
                          setEntry reg full
                            { title := title, href := full,
                              source := ("json-ld"), score := 100 }) reg) reg

/-- OpenGraph detector (`og:url` + `og:title`). -/
def ogStage (base : String) (ogUrl ogTitle : Option String) (reg : Registry) : Registry :=
  match truthyStr ogUrl, truthyStr ogTitle with
  | some u, some t =>
      match resolveUrl u base with
      | none => reg
      | some full =>
          setEntry reg full
            { title := t, href := full, source := ("opengraph"), score := 70 }
  | _, _ => reg

def isWordCharJS (c : Char) : Bool := c.isAlphanum || c = '_'

/-- The heuristic path keywords. -/
def pathKeywords : List String :=
  [("post"), ("posts"), ("article"), ("articles"), ("blog"), ("news"), ("story")]

/-- Does the suffix start with `/<keyword>\b`? -/
def keywordHere (s : List Char) : Bool :=
  match s with
  | '/' :: rest =>
      pathKeywords.any (fun w =>
        listIsPrefix w.toList rest &&
          (match rest.drop w.length with
           | [] => true
           | c :: _ => ¬ isWordCharJS c))
  | _ => false

/-- `/\/(post|posts|article|articles|blog|news|story)\b/.test(lc)`. -/
def hasPathKeyword : List Char → Bool
  | [] => false
  | c :: r => keywordHere (c :: r) || hasPathKeyword r

/-- `text.match(/^(read|view|learn)/i)`. -/
def startsReadViewLearn (t : String) : Bool :=
  startsWithJS (toLowerJS t) ("read") || startsWithJS (toLowerJS t) ("view") ||
    startsWithJS (toLowerJS t) ("learn")

/-- Heuristic anchor detector (`a[href]`).  URL resolution here is not
wrapped in `try`: a failure escapes `extractPosts`. -/
def heuristicStage (base : String) : List Anchor → Registry → Except String Registry
  | [], reg => .ok reg
  | a :: rest, reg =>
      if a.href = ("") then heuristicStage base rest reg
      else
        let text := trimJS a.text
        match resolveUrl a.href base with
        | none => .error ("Invalid URL")       -- uncaught TypeError
        | some full =>
            let lc := toLowerJS a.href
            if hasPathKeyword lc.toList ∨ a.inPostContainer ∨
                (lenJS text > 10 ∧ startsReadViewLearn text) then
              if hasKey reg full then heuristicStage base rest reg
              else
                heuristicStage base rest
                  (setEntry reg full
                    { title := jsOrStr text ("Heuristic Link"), href := full,
                      source := ("heuristic"), score := 60 })
            else heuristicStage base rest reg

/-- `extractPosts` (v4 lines 272–380 / v5 lines 61–169): run the five
detectors, then sort the registry values by descending score and cap at
200. -/
def extractPosts (page : Page) (base : String) : Except String (List PostItem) :=
  match heuristicStage base page.anchors
      (ogStage base page.ogUrl page.ogTitle
        (jsonLdStage base page.jsonLdBlocks
          (articleStage base page.articleAnchors
            (rssStage base page.feedLinks [])))) with
  | .error e => .error e
  | .ok reg =>
      .ok ((List.insertionSort (fun a b => b.score ≤ a.score) (reg.map Prod.snd)).take 200)

/- ### The call-site pattern registry

Transcriptions of the source's regex literals.  `commonCapture` is
`["']([^"',\s]+)["']`; all patterns carry flags `gi`. -/

def braceL : Char := Char.ofNat 123
def braceR : Char := Char.ofNat 125

/-- `axios\.post\s*\(\s*` + capture. -/
def reAxiosPost : RE :=
  reSeqL [reLit ("axios.post"), wsStar, chCI '(', wsStar, commonCaptureRE 1]

/-- `axios\.get\s*\(\s*` + capture. -/
def reAxiosGet : RE :=
  reSeqL [reLit ("axios.get"), wsStar, chCI '(', wsStar, commonCaptureRE 1]

/-- `\$\.post\s*\(\s*` + capture. -/
def reJqPost : RE :=
  reSeqL [reLit ("$.post"), wsStar, chCI '(', wsStar, commonCaptureRE 1]

/-- `\$\.get\s*\(\s*` + capture. -/
def reJqGet : RE :=
  reSeqL [reLit ("$.get"), wsStar, chCI '(', wsStar, commonCaptureRE 1]

/-- `open\s*\(\s*["']?POST["']?\s*,\s*` + capture (v1 only). -/
def reOpenPost : RE :=
  reSeqL [reLit ("open"), wsStar, chCI '(', wsStar, reQuoteOpt, reLit ("POST"),
    reQuoteOpt, wsStar, chCI ',', wsStar, commonCaptureRE 1]

/-- `fetch\s*\(\s*` capture `.*?method\s*[:=]\s*["']?POST["']?` (v1). -/
def reFetchMethodPost : RE :=
  reSeqL [reLit ("fetch"), wsStar, chCI '(', wsStar, commonCaptureRE 1, lazyDotStar,
    reLit ("method"), wsStar, reColonEq, wsStar, reQuoteOpt, reLit ("POST"), reQuoteOpt]

/-- `fetch\s*\(\s*` capture `.*?method\s*[:=]\s*["']?([A-Z]+)["']?` (v4/v5):
group 1 is the URL, group 2 the method. -/
def reFetchMethod : RE :=
  reSeqL [reLit ("fetch"), wsStar, chCI '(', wsStar, commonCaptureRE 1, lazyDotStar,
    reLit ("method"), wsStar, reColonEq, wsStar, reQuoteOpt, upperGroup 2, reQuoteOpt]

/-- `fetch\s*\(\s*` + capture. -/
def reFetch : RE :=
  reSeqL [reLit ("fetch"), wsStar, chCI '(', wsStar, commonCaptureRE 1]

/-- `open\s*\(\s*["']?([A-Z]+)["']?\s*,\s*` + capture (group 2). -/
def reOpenGeneral : RE :=
  reSeqL [reLit ("open"), wsStar, chCI '(', wsStar, reQuoteOpt, upperGroup 1,
    reQuoteOpt, wsStar, chCI ',', wsStar, commonCaptureRE 2]

/-- `axios\.(?:post|get)\s*\(\s*` + capture (v1). -/
def reAxiosPostOrGet : RE :=
  reSeqL [reLit ("axios."), .alt (reLit ("post")) (reLit ("get")), wsStar,
    chCI '(', wsStar, commonCaptureRE 1]

/-- `\$\.(?:post|get)\s*\(\s*` + capture (v1). -/
def reJqPostOrGet : RE :=
  reSeqL [reLit ("$."), .alt (reLit ("post")) (reLit ("get")), wsStar,
    chCI '(', wsStar, commonCaptureRE 1]

/-- `send\s*\(\s*(?:null|\{[^}]+\})?\)` (v4). -/
def reSend : RE :=
  reSeqL [reLit ("send"), wsStar, chCI '(', wsStar,
    .alt (.alt (reLit ("null"))
        (reSeqL [.cpred (fun c => c = braceL),
          rePlus (.cpred (fun c => ¬ c = braceR)),
          .cpred (fun c => c = braceR)]))
      .eps,
    chCI ')']

/-- `/graphql\s*` + capture. -/
def reGraphqlUrl : RE :=
  reSeqL [reLit ("/graphql"), wsStar, commonCaptureRE 1]

/-- `(query|mutation)\s*{[^}]+}`. -/
def reGraphqlOp : RE :=
  reSeqL [.group 1 (.alt (reLit ("query")) (reLit ("mutation"))), wsStar,
    .cpred (fun c => c = braceL), rePlus (.cpred (fun c => ¬ c = braceR)),
    .cpred (fun c => c = braceR)]

/-- `(ws|wss):/{2}[^"',\s]+`. -/
def reWsUrl : RE :=
  reSeqL [.group 1 (.alt (reLit ("ws")) (reLit ("wss"))), chCI ':', chCI '/',
    chCI '/', rePlus urlChar]

/-- `meth` resolution: a literal method string, or `'$1'`, meaning
`(match[1] || 'GET').toUpperCase()`. -/
def resolveMethodSpec (m : RMatch) (method : String) : String :=
  if method = ("$1") then toUpperJS (orElseStr (m.caps.lookup 1) ("GET"))
  else method

namespace V1

/-- A v1 pattern: regex, capture group for the URL, method field, and the
two facts about `regex.source` the mode filter inspects
(`regex.source.includes('fetch')` / `…includes('open')`). -/
structure Pattern where
  re : RE
  grp : Nat
  method : String
  srcHasFetch : Bool
  srcHasOpen : Bool

/-- The v1 pattern list (src/api/fetch.js lines 140–156). -/
def patternList : List Pattern :=
  [ { re := reAxiosPost, grp := 1, method := ("POST"), srcHasFetch := false, srcHasOpen := false },
    { re := reJqPost, grp := 1, method := ("POST"), srcHasFetch := false, srcHasOpen := false },
    { re := reOpenPost, grp := 1, method := ("POST"), srcHasFetch := false, srcHasOpen := true },
    { re := reFetchMethodPost, grp := 1, method := ("POST"), srcHasFetch := true, srcHasOpen := false },
    { re := reFetch, grp := 1, method := ("GET"), srcHasFetch := true, srcHasOpen := false },
    { re := reOpenGeneral, grp := 2, method := ("$1"), srcHasFetch := false, srcHasOpen := true },
    { re := reAxiosPostOrGet, grp := 1, method := ("POST"), srcHasFetch := false, srcHasOpen := false },
    { re := reJqPostOrGet, grp := 1, method := ("GET"), srcHasFetch := false, srcHasOpen := false } ]

/-- v1 `getPatternsForMode` (lines 138–164). -/
def getPatternsForMode (m : String) : List Pattern :=
  patternList.filter (fun p =>
    if m = ("post") then p.method = ("POST")
    else if m = ("fetch") then p.srcHasFetch
    else if m = ("xhr") then p.srcHasOpen
    else if m = ("all-endpoints") then true
    else false)

end V1

namespace V4

/-- A v4 pattern (src/api/fetch.js lines 466–492). -/
structure Pattern where
  re : RE
  grp : Nat
  method : String
  modeMatch : List String

def patternListBase : List Pattern :=
  [ { re := reAxiosPost, grp := 1, method := ("POST"),
      modeMatch := [("post"), ("all-endpoints"), ("hidden"), ("graphql")] },
    { re := reAxiosGet, grp := 1, method := ("GET"), modeMatch := [("all-endpoints")] },
    { re := reJqPost, grp := 1, method := ("POST"),
      modeMatch := [("post"), ("all-endpoints"), ("hidden")] },
    { re := reJqGet, grp := 1, method := ("GET"), modeMatch := [("all-endpoints")] },
    { re := reFetchMethod, grp := 1, method := ("$1"),
      modeMatch := [("fetch"), ("post"), ("all-endpoints"), ("hidden"), ("graphql")] },
    { re := reFetch, grp := 1, method := ("GET"), modeMatch := [("fetch"), ("all-endpoints")] },
    { re := reOpenGeneral, grp := 2, method := ("$1"),
      modeMatch := [("xhr"), ("all-endpoints"), ("hidden")] },
    { re := reSend, grp := 0, method := ("POST"), modeMatch := [("xhr"), ("post")] } ]

/-- v4 `getPatternsForMode` (lines 466–492): the base list, plus the
graphql / ws extras pushed for those modes, filtered by `modeMatch`. -/
def getPatternsForMode (m : String) : List Pattern :=
  let ps := patternListBase ++
    (if m = ("graphql") then
      [ { re := reGraphqlUrl, grp := 1, method := ("POST"), modeMatch := [("graphql")] },
        { re := reGraphqlOp, grp := 0, method := ("GRAPHQL"), modeMatch := [("graphql")] } ]
     else []) ++
    (if m = ("ws") then
      [ { re := reWsUrl, grp := 0, method := ("WS"), modeMatch := [("ws")] } ]
     else [])
  ps.filter (fun p => p.modeMatch.contains m)

end V4

/-- `(x.score || 0)` in the sort comparators. -/
def scoreD (it : NetItem) : Nat := it.score.getD 0

namespace V1

/-- v1 network environment: the external-script fetch (`fetch(jsUrl)`);
`some body` when the response is ok, `none` when it fails, times out or
has a non-ok status (the catch logs and skips). -/
structure Env where
  net : String → Option String

/-- `script[src]` collection, capped at 5, resolution in `try … catch {}`
(lines 112–120). -/
def jsUrls (page : Page) (base : String) : List String :=
  page.scriptSrcs.foldl (fun acc src =>
    if src ≠ ("") ∧ acc.length < 5 then
      match resolveUrl src base with
      | some u => acc ++ [u]
      | none => acc
    else acc) []

/-- The script corpus: inline bodies with nonblank text, then the bodies
of successfully fetched external scripts (lines 107–135). -/
def jsCodes (env : Env) (page : Page) (base : String) : List String :=
  page.inlineScripts.filter (fun c => trimJS c ≠ ("")) ++
    (jsUrls page base).filterMap env.net

/-- The v1 match loop body for one pattern over one code string (lines
170–189): default `exec` advance, `match[group] || ''`, context window
`[idx-50, idx+100)`, no score. -/
def scanCode (base : String) (p : Pattern) (acc : List NetItem) (code : String) :
    List NetItem :=
  let cs := code.toList
  (execLoopAdvance p.re (cs.length + 1) cs 0).foldl (fun acc m =>
    let endpoint := orElseStr (matchGroup cs m p.grp) ("")
    let meth := resolveMethodSpec m p.method
    if endpoint = ("") then acc
    else
      match (if startsWithJS endpoint ("http") then some endpoint
             else resolveUrl endpoint base) with
      | none => acc
      | some ep =>
          let context := trimJS (substringJS cs (m.idx - 50) (m.idx + 100))
          addItem acc { url := ep, method := meth, context := some context, score := none }) acc

/-- v1 `extractNetworkCalls` (src/api/fetch.js lines 102–205). -/
def extractNetworkCalls (env : Env) (page : Page) (base : String) (mode : String) :
    List NetItem :=
  let codes := jsCodes env page base
  let pats := getPatternsForMode mode
  let r1 := pats.foldl (fun acc p => codes.foldl (scanCode base p) acc) []
  let r2 :=
    if mode = ("scripts") then
      page.scriptSrcs.foldl (fun acc src =>
        if src ≠ ("") then
          match resolveUrl src base with
          | some u =>
              addItem acc
                { url := u, method := ("SCRIPT"), context := some ("External JS"),
                  score := none }
          | none => acc
        else acc) r1
    else r1
  r2.take 100

end V1

namespace V4

/-- v4 network environment.  `net` is the batched `axios.get` of external
scripts (`none` = the catch returned `''`); `sitemapLocs` the `<loc>`
texts cheerio finds in a successfully fetched sitemap (`none` = fetch
failed); `robotsBody` the fetched robots.txt; `beautifyFn` the
`js-beautify` call (`none` = it threw); `pupReqs`/`pupPerf` what the
rendering session observed ((url, method) request pairs and
(name, initiatorType) resource-timing entries); `pupFails` models a
launch/navigation failure, which throws out of `extractNetworkCalls`. -/
structure Env where
  net : String → Option String
  sitemapLocs : Option (List String)
  robotsBody : Option String
  beautifyFn : String → Option String
  pupReqs : List (String × String)
  pupPerf : List (String × String)
  pupFails : Bool

/-- `script[src]` collection, capped at 10 (lines 434–442). -/
def jsUrls (page : Page) (base : String) : List String :=
  page.scriptSrcs.foldl (fun acc src =>
    if src ≠ ("") ∧ acc.length < 10 then
      match resolveUrl src base with
      | some u => acc ++ [u]
      | none => acc
    else acc) []

/-- The script corpus (lines 428–462): inline nonblank bodies, then the
batch-fetched external bodies (a failed fetch yields `''`, which the
`if (code.trim())` guard drops). -/
def jsCodes (env : Env) (page : Page) (base : String) : List String :=
  page.inlineScripts.filter (fun c => trimJS c ≠ ("")) ++
    (((jsUrls page base).map (fun u => (env.net u).getD (""))).filter
      (fun c => trimJS c ≠ ("")))

/-- The v4/v5 match loop body for one pattern over one code string:
`lastIndex` reset to `match.index + 1`, `match[group] || match[0]`,
context window `[idx-50, idx+150)`; `scoreOf` is the score expression of
the enclosing loop. -/
def scanCode (base : String) (scoreOf : String → Nat) (p : Pattern)
    (acc : List NetItem) (code : String) : List NetItem :=
  let cs := code.toList
  (execLoopReset p.re (cs.length + 1) cs 0).foldl (fun acc m =>
    let endpoint := orElseStr (matchGroup cs m p.grp) (substringJS cs m.idx m.stop)
    let meth := resolveMethodSpec m p.method
    if endpoint = ("") then acc
    else
      match (if startsWithJS endpoint ("http") then some endpoint
             else resolveUrl endpoint base) with
      | none => acc
      | some ep =>
          let context := trimJS (substringJS cs (m.idx - 50) (m.idx + 150))
          addItem acc
            { url := ep, method := meth, context := some context,
              score := some (scoreOf ep) }) acc

/-- Static-scan score (line 509):
`0.7 + (endpoint.includes('/api/') || endpoint.includes('/v') ? 0.3 : 0)`. -/
def staticScore (ep : String) : Nat :=
  70 + (if containsSub ep ("/api/") || containsSub ep ("/v") then 30 else 0)

/-- Hidden-mode beautified-scan score (line 572):
`0.8 + (endpoint.includes('/internal') ? 0.2 : 0)`. -/
def hiddenScore (ep : String) : Nat :=
  80 + (if containsSub ep ("/internal") then 20 else 0)

/-- `extractWithPuppeteer` (lines 395–421): requests with an api/graphql
URL or POST method, then fetch/xhr resource-timing entries, capped at
50. -/
def extractWithPuppeteer (env : Env) : List NetItem :=
  (((env.pupReqs.filter (fun r =>
      containsSub r.1 ("api") || containsSub r.1 ("graphql") || r.2 = ("POST"))).map
    (fun r =>
      ({ url := r.1, method := r.2, context := none,
         score := some (if containsSub r.1 ("/v") then 90 else 70) } : NetItem)) ++
   (env.pupPerf.filter (fun p =>
      p.2 = ("fetch") || p.2 = ("xmlhttprequest"))).map
    (fun p =>
      ({ url := p.1, method := ("DYNAMIC"), context := none,
         score := some 85 } : NetItem))) : List NetItem).take 50

/-- Sitemap stage (lines 525–537): each nonblank `<loc>` text is added
verbatim (not resolved). -/
def sitemapStage (env : Env) (acc : List NetItem) : List NetItem :=
  match env.sitemapLocs with
  | none => acc
  | some locs =>
      locs.foldl (fun acc loc =>
        let l := trimJS loc
        if l = ("") then acc
        else
          addItem acc
            { url := l, method := ("SITEMAP"), context := some ("Sitemap"),
              score := some 90 }) acc

/-- Robots stage line loop (lines 544–550).  URL resolution happens
inside the stage's `try`, so a resolution failure aborts the remaining
lines but keeps the items already added. -/
def robotsLines (base : String) : List String → List NetItem → List NetItem
  | [], acc => acc
  | line :: rest, acc =>
      if startsWithJS line ("Disallow:") ∧ containsSub line ("/api/") then
        let path := trimJS ((splitOnChar ':' line).getD 1 (""))
        match resolveUrl path base with
        | none => acc
        | some u =>
            robotsLines base rest
              (addItem acc
                { url := u, method := ("ROBOTS-HIDDEN"), context := some ("Disallowed"),
                  score := some 95 })
      else robotsLines base rest acc

/-- Robots stage (lines 540–554). -/
def robotsStage (env : Env) (base : String) (acc : List NetItem) : List NetItem :=
  match env.robotsBody with
  | none => acc
  | some body => robotsLines base (splitOnChar '\n' body) acc

/-- Hidden stage (lines 557–583): re-run every active pattern over the
beautified code; `beautify` throwing skips that code. -/
def hiddenStage (env : Env) (base : String) (pats : List Pattern)
    (codes : List String) (acc : List NetItem) : List NetItem :=
  codes.foldl (fun acc code =>
    match env.beautifyFn code with
    | none => acc
    | some b => pats.foldl (fun acc p => scanCode base hiddenScore p acc b) acc) acc

/-- Scripts stage (lines 586–596). -/
def scriptsStage (page : Page) (base : String) (acc : List NetItem) : List NetItem :=
  page.scriptSrcs.foldl (fun acc src =>
    if src ≠ ("") then
      match resolveUrl src base with
      | some u =>
          addItem acc
            { url := u, method := ("SCRIPT"), context := some ("External"),
              score := some 50 }
      | none => acc
    else acc) acc

/-- Run a stage only in its mode (`if (mode === '…') { … }`). -/
def condStage (c : Prop) [Decidable c] (f : List NetItem → List NetItem)
    (l : List NetItem) : List NetItem :=
  if c then f l else l

/-- The static pattern pass over the script corpus (lines 497–516). -/
def staticPass (env : Env) (page : Page) (base mode : String) : List NetItem :=
  (getPatternsForMode mode).foldl
    (fun acc p => (jsCodes env page base).foldl (scanCode base staticScore p) acc) []

/-- All items accumulated before the final sort-and-cap (lines
497–596): the static pass, the dynamic capture for the modes that use
it, and the sitemap / robots / hidden / scripts stages in source
order. -/
def preSortItems (env : Env) (page : Page) (base mode : String) :
    Except String (List NetItem) :=
  match (if mode = ("hidden") ∨ mode = ("graphql") ∨ mode = ("ws") then
           (if env.pupFails then none else some (extractWithPuppeteer env))
         else some []) with
  | none => .error ("Puppeteer launch or navigation failed")
  | some dyn =>
      .ok (condStage (mode = ("scripts")) (scriptsStage page base)
            (condStage (mode = ("hidden"))
              (hiddenStage env base (getPatternsForMode mode) (jsCodes env page base))
              (condStage (mode = ("robots")) (robotsStage env base)
                (condStage (mode = ("sitemap")) (sitemapStage env)
                  (dyn.foldl addItem (staticPass env page base mode))))))

/-- v4 `extractNetworkCalls` (src/api/fetch.js lines 424–601): the
accumulated items, sorted by descending score and capped at 150.  The
only uncaught failure is a Puppeteer launch/navigation error. -/
def extractNetworkCalls (env : Env) (page : Page) (base : String) (mode : String) :
    Except String (List NetItem) :=
  (preSortItems env page base mode).map
    (fun r => (List.insertionSort (fun a b => scoreD b ≤ scoreD a) r).take 150)

end V4

namespace V5

/-- Status values as they appear in resources: numbers from responses,
strings like `'connected'` / `'static'`. -/
inductive StatusV where
  | num : Nat → StatusV
  | str : String → StatusV
deriving DecidableEq, Repr

/-- A captured resource (the objects `fullNetworkScan` accumulates in
`allResources` / `staticCalls`).  The request/response header maps are
threaded verbatim by the source and never read apart from
`content-length` (folded into `size` at creation), so they are omitted
here. -/
structure Resource where
  category : String
  url : String
  method : String
  status : StatusV
  size : Nat
  type : String
  source : String
  duration : Option ℚ := none
  transferSize : Option ℚ := none
  initiatorType : Option String := none
  context : Option String := none
  score : Option Nat := none
deriving DecidableEq, Repr

/-- `classifyResource` (src/unnamed/part_000 lines 28–47); the `mime`
field is destructured but never used. -/
def classifyResource (url resourceType method : String) : String :=
  if method = ("OPTIONS") then ("Options")
  else if resourceType = ("XHR") ∨ resourceType = ("Fetch") then
    (if containsSubCI url ("api") ∧
        ¬ ([("css"), ("js"), ("png"), ("jpg"), ("gif"), ("woff"), ("ttf"), ("mp4"),
            ("mp3"), ("wasm"), ("xml"), ("txt"), ("json")].any
          (fun e => endsWithStr (toLowerJS url) ((".") ++ e))) then ("Hidden APIs")
     else resourceType)
  else if resourceType = ("Document") then ("Doc")
  else if resourceType = ("Stylesheet") then ("CSS")
  else if resourceType = ("Script") then ("JS/Scripts")
  else if resourceType = ("Image") then ("Img")
  else if resourceType = ("Media") then ("Media")
  else if resourceType = ("Font") then ("Font")
  else if resourceType = ("WebSocket") then ("Socket")
  else if endsWithStr url (".wasm") then ("Wasm")
  else if containsSub url ("/sitemap.xml") then ("Sitemap")
  else if containsSub url ("/robots.txt") then ("Robots.txt")
  else if containsSub url ("/manifest.json") then ("Manifest")
  else ("Other")

/-- `calculateScore` (lines 50–58); scores in hundredths, so
`Math.min(score, 1.0)` caps at 100. -/
def calculateScore (category url method : String) : Nat :=
  let s0 : Nat := 50
  let s1 := s0 + (if category = ("XHR") ∨ category = ("Fetch") ∨
      category = ("Hidden APIs") then 30 else 0)
  let s2 := s1 + (if containsSub url ("/api/") || containsSub url ("/v") ||
      containsSub url ("/graphql") then 20 else 0)
  let s3 := s2 + (if method = ("POST") ∨ method = ("PUT") ∨ method = ("DELETE")
      then 10 else 0)
  let s4 := if category = ("Sitemap") ∨ category = ("Manifest") ∨
      category = ("Robots.txt") then 90 else s3
  min s4 100

/-- A `page.on('response')` event, with the fields the listener reads
(`content-length` from the response headers). -/
structure RawResponse where
  url : String
  method : String
  resourceType : String
  status : Nat
  contentLength : Option Nat
deriving DecidableEq, Repr

/-- Network events observed during the rendered session, in order. -/
inductive PageEvent where
  | response : RawResponse → PageEvent
  | websocket : String → PageEvent
deriving DecidableEq, Repr

/-- A resource-timing entry from `performance.getEntriesByType`. -/
structure PerfRes where
  name : String
  initiatorType : String
  duration : ℚ
  transferSize : ℚ
deriving DecidableEq, Repr

/-- `pageInfo` gathered by the final `page.evaluate`. -/
structure PageInfo where
  title : String
  status : Nat
  loadTime : ℚ
  memoryUsage : Option (Nat × Nat × Nat)
deriving DecidableEq, Repr

/-- The dynamic-capture environment of one request: whether launching or
navigating throws, the observed events, timing entries, the in-page
script-src list, the external-script / special-file fetches, and
`js-beautify`. -/
structure Env where
  launchFails : Bool
  gotoFails : Bool
  events : List PageEvent
  perf : List PerfRes
  pageScriptSrcs : List String
  net : String → Option String
  specialResp : String → Option (Nat × Option Nat)
  beautifyFn : String → Option String
  pageInfo : PageInfo

/-- The `page.on('response')` listener body (lines 204–228). -/
def respToResource (r : RawResponse) : Resource :=
  { category := classifyResource r.url r.resourceType r.method,
    url := r.url, method := r.method, status := .num r.status,
    size := r.contentLength.getD 0, type := r.resourceType,
    source := ("dynamic") }

/-- The `page.on('websocket')` listener body (lines 231–243). -/
def wsToResource (u : String) : Resource :=
  { category := ("Socket"), url := u, method := ("WS"),
    status := .str ("connected"), size := 0, type := ("WebSocket"),
    source := ("dynamic") }

def eventToResource : PageEvent → Resource
  | .response r => respToResource r
  | .websocket u => wsToResource u

/-- Resource-timing correlation (lines 261–269). -/
def perfMatch (perf : List PerfRes) (res : Resource) : Resource :=
  match perf.find? (fun p => p.name = res.url) with
  | some p =>
      { res with
        duration := some p.duration
        transferSize := some p.transferSize
        initiatorType := some p.initiatorType }
  | none => res

/-- A v5 static pattern (lines 306–323). -/
structure Pattern where
  re : RE
  grp : Nat
  method : String

/-- The v5 static pattern list: all seven base patterns apply in every
mode; graphql/ws modes add their extras. -/
def patternList (mode : String) : List Pattern :=
  [ { re := reAxiosPost, grp := 1, method := ("POST") },
    { re := reAxiosGet, grp := 1, method := ("GET") },
    { re := reJqPost, grp := 1, method := ("POST") },
    { re := reJqGet, grp := 1, method := ("GET") },
    { re := reFetchMethod, grp := 1, method := ("$1") },
    { re := reFetch, grp := 1, method := ("GET") },
    { re := reOpenGeneral, grp := 2, method := ("$1") } ] ++
  (if mode = ("graphql") then
    [ { re := reGraphqlUrl, grp := 1, method := ("POST") },
      { re := reGraphqlOp, grp := 0, method := ("GRAPHQL") } ]
   else []) ++
  (if mode = ("ws") then
    [ { re := reWsUrl, grp := 0, method := ("WS") } ]
   else [])

/-- The v5 static match loop (lines 326–354).  The
`regex.lastIndex = match.index + 1` reset sits inside the `try`, so a
resolution failure leaves the default advance to the end of the match;
the loop body signals which advance applies. -/
def execLoopCond (re : RE) (step : α → RMatch → α × Bool) :
    Nat → (suff : List Char) → (base : Nat) → α → α
  | 0, _, _, acc => acc
  | fuel + 1, suff, base, acc =>
      match REsearch re suff 0 with
      | none => acc
      | some m =>
          match step acc ⟨base + m.idx, base + m.stop, m.caps⟩ with
          | (acc2, didReset) =>
              match suff with
              | [] => acc2
              | _ :: _ =>
                  execLoopCond re step fuel
                    (suff.drop (if didReset then m.idx + 1 else max m.stop (m.idx + 1)))
                    (base + (if didReset then m.idx + 1 else max m.stop (m.idx + 1))) acc2

/-- One v5 static-scan pattern pass over one code string (lines
329–353): on success the pushed resource is classified as `XHR` /
`static` / `static-js`. -/
def scanCodeStatic (base : String) (p : Pattern) (acc : List Resource)
    (code : String) : List Resource :=
  let cs := code.toList
  execLoopCond p.re (fun acc m =>
    let endpoint := orElseStr (matchGroup cs m p.grp) (substringJS cs m.idx m.stop)
    let meth := resolveMethodSpec m p.method
    if endpoint = ("") then (acc, false)
    else
      match (if startsWithJS endpoint ("http") then some endpoint
             else resolveUrl endpoint base) with
      | none => (acc, false)
      | some ep =>
          let context := trimJS (substringJS cs (m.idx - 50) (m.idx + 150))
          (acc ++
            [{ category := classifyResource ep ("XHR") meth, url := ep,
               method := meth, status := .str ("static"), size := 0,
               type := ("XHR"), source := ("static-js"),
               context := some context }], true)) (cs.length + 1) cs 0 acc

/-- One hidden-mode beautified pattern pass (lines 360–388): the push is
guarded by `!staticCalls.some(s => s.url === endpoint)` against the raw
(pre-resolution) captured endpoint, and the `lastIndex` reset always
runs. -/
def scanCodeBeautified (base : String) (p : Pattern) (acc : List Resource)
    (code : String) : List Resource :=
  let cs := code.toList
  (execLoopReset p.re (cs.length + 1) cs 0).foldl (fun acc m =>
    let endpoint := orElseStr (matchGroup cs m p.grp) (substringJS cs m.idx m.stop)
    let meth := resolveMethodSpec m p.method
    if endpoint ≠ ("") ∧ ¬ acc.any (fun s => s.url = endpoint) then
      match (if startsWithJS endpoint ("http") then some endpoint
             else resolveUrl endpoint base) with
      | none => acc
      | some ep =>
          let context := trimJS (substringJS cs (m.idx - 50) (m.idx + 150))
          acc ++
            [{ category := classifyResource ep ("XHR") meth, url := ep,
               method := meth, status := .str ("static-beautified"), size := 0,
               type := ("XHR"), source := ("static-js-beautified"),
               context := some context }]
    else acc) acc

/-- The per-code body of the batched script loop (lines 324–393): skip
blank bodies, run every pattern, and in hidden mode re-run them over the
beautified text (a `beautify` throw skips that part). -/
def staticCallsOfCodes (env : Env) (base mode : String) (codes : List String) :
    List Resource :=
  codes.foldl (fun acc code =>
    if trimJS code = ("") then acc
    else
      let acc := (patternList mode).foldl (fun acc p => scanCodeStatic base p acc code) acc
      if mode = ("hidden") then
        match env.beautifyFn code with
        | none => acc
        | some b =>
            (patternList mode).foldl (fun acc p => scanCodeBeautified base p acc b) acc
      else acc) []

/-- Whether the browser session was launched and whether it was closed
when `fullNetworkScan` returned (normally or by throwing). -/
structure BrowserTrace where
  launched : Bool
  closed : Bool
deriving DecidableEq, Repr

/-- `fullNetworkScan` (src/unnamed/part_000 lines 188–446).  The
function has no `try`/`finally`: `browser.close()` is only reached on
the success path, so a navigation failure returns with
`closed = false`.  Failures of the in-page evaluations after a
successful navigation are not modelled (they would behave like the
navigation failure). -/
def fullNetworkScan (env : Env) (base mode : String) :
    Except String (List Resource × PageInfo) × BrowserTrace :=
  if env.launchFails then
    (.error ("puppeteer launch failed"), { launched := false, closed := false })
  else if env.gotoFails then
    (.error ("navigation failed"), { launched := true, closed := false })
  else
    let eventRes := (env.events.map eventToResource).map (perfMatch env.perf)
    let jsUrlsList := env.pageScriptSrcs.take 10
    let codes := jsUrlsList.map (fun u => (env.net u).getD (""))
    let staticCalls := staticCallsOfCodes env base mode codes
    let specials :=
      [(("/sitemap.xml"), ("Sitemap")), (("/robots.txt"), ("Robots.txt")),
       (("/manifest.json"), ("Manifest"))].foldl (fun acc sp =>
        match resolveUrl sp.1 base with
        | none => acc
        | some spUrl =>
            match env.specialResp spUrl with
            | none => acc
            | some (st, cl) =>
                acc ++
                  [({ category := sp.2, url := spUrl, method := ("GET"),
                      status := .num st, size := cl.getD 0, type := ("fetch"),
                      source := ("special") } : Resource)]) []
    (.ok (eventRes ++ specials ++ staticCalls, env.pageInfo),
      { launched := true, closed := true })

/-- `(x.score || 0)` for resources. -/
def rscoreD (r : Resource) : Nat := r.score.getD 0

/-- The mode switch of `attemptScan` (lines 476–507). -/
def filterByMode (mode : String) (rs : List Resource) : List Resource :=
  if mode = ("fetch") then rs.filter (fun r => r.type = ("Fetch"))
  else if mode = ("xhr") then rs.filter (fun r => r.type = ("XHR"))
  else if mode = ("post") then rs.filter (fun r => r.method = ("POST"))
  else if mode = ("hidden") then rs.filter (fun r => r.category = ("Hidden APIs"))
  else if mode = ("graphql") then rs.filter (fun r => containsSub r.url ("graphql"))
  else if mode = ("ws") then rs.filter (fun r => r.category = ("Socket"))
  else if mode = ("sitemap") then rs.filter (fun r => r.category = ("Sitemap"))
  else if mode = ("robots") then rs.filter (fun r => r.category = ("Robots.txt"))
  else if mode = ("scripts") then rs.filter (fun r => r.category = ("JS/Scripts"))
  else if mode = ("doc") then rs.filter (fun r => r.category = ("Doc"))
  else if mode = ("css") then rs.filter (fun r => r.category = ("CSS"))
  else if mode = ("js") then rs.filter (fun r => r.category = ("JS/Scripts"))
  else if mode = ("font") then rs.filter (fun r => r.category = ("Font"))
  else if mode = ("img") then rs.filter (fun r => r.category = ("Img"))
  else if mode = ("media") then rs.filter (fun r => r.category = ("Media"))
  else if mode = ("manifest") then rs.filter (fun r => r.category = ("Manifest"))
  else if mode = ("wasm") then rs.filter (fun r => r.category = ("Wasm"))
  else if mode = ("options") then rs.filter (fun r => r.category = ("Options"))
  else if mode = ("all-endpoints") then
    rs.filter (fun r => r.type = ("XHR") ∨ r.type = ("Fetch") ∨
      containsSub r.url ("api") ∨ containsSub r.url ("/v"))
  else if mode = ("browser") ∨ mode = ("full") ∨ mode = ("all") then rs
  else rs.filter (fun r => r.category = ("XHR") ∨ r.category = ("Fetch") ∨
    r.category = ("Hidden APIs") ∨ r.category = ("Socket"))

/-- The emission stage of `attemptScan` (lines 508–510): filter, attach
scores, sort descending, cap at 200. -/
def emitItems (mode : String) (rs : List Resource) : List Resource :=
  (List.insertionSort (fun a b => rscoreD b ≤ rscoreD a)
    ((filterByMode mode rs).map (fun r =>
      { r with score := some (calculateScore r.category r.url r.method) }))).take 200

end V5

/- ### The request gate and the retrying scan drivers -/

/-- A JS value in the `url` field of the request body. -/
inductive JSVal where
  | undef : JSVal
  | str : String → JSVal
  | other : JSVal
deriving DecidableEq, Repr

/-- `normalizeUrl` (v5 lines 13–20, v4 lines 257–264): non-`http`-prefixed
strings get `https://` prepended; any exception inside the `try` —
including the `TypeError` from calling `.startsWith` on a missing or
non-string value — yields `null`. -/
def normalizeUrl (u : JSVal) : Option String :=
  match u with
  | .str s => jsUrlParse (if ¬ startsWithJS s ("http") then ("https://") ++ s else s)
  | _ => none

/-- The handler's entry gate (v5 lines 9–23): method check, then URL
normalization. -/
inductive GateResult where
  | methodNotAllowed : GateResult
  | invalidUrl : GateResult
  | proceed : String → GateResult
deriving DecidableEq, Repr

def handleGate (method : String) (urlField : JSVal) : GateResult :=
  if method ≠ ("POST") then .methodNotAllowed
  else
    match normalizeUrl urlField with
    | none => .invalidUrl
    | some norm => .proceed norm

/-- Outcome of one top-level page fetch attempt. -/
inductive FetchAttempt where
  | ok : Nat → Page → FetchAttempt
  | throwErr : String → FetchAttempt    -- the error's `name`

/-- `resp.ok`. -/
def respOk (s : Nat) : Bool := 200 ≤ s ∧ s < 300

/-- What the handler sends (or fails to send): a JSON payload, an error
status, or a crash that produces no response at all. -/
inductive Outcome (δ : Type) where
  | jsonOk : δ → Outcome δ
  | errResp : Nat → String → Outcome δ
  | crashed : String → Outcome δ
deriving DecidableEq, Repr

namespace V4

/-- The v4 response payload. -/
inductive ScanData where
  | posts : String → List PostItem → ScanData
  | netcalls : String → List NetItem → ScanData
deriving DecidableEq, Repr

/-- One attempt of v4 `attemptScan` (src/api/fetch.js lines 604–641):
non-ok statuses retry and exhaust into a 502 carrying the last status;
thrown errors (abort, network, extraction) retry and exhaust into 408
for `AbortError`, 500 otherwise.  `retry` is the recursive call
`attemptScan(attempt + 1)`. -/
def attemptStep (penv : Nat → FetchAttempt) (nenv : Env) (base mode : String)
    (attempt : Nat) (retry : Unit → Outcome ScanData × Nat) : Outcome ScanData × Nat :=
  match penv attempt with
  | .throwErr name =>
      if attempt < 3 then retry ()
      else
        (.errResp (if name = ("AbortError") then 408 else 500)
          ("Extreme scan failed after retries."), attempt)
  | .ok s page =>
      if ¬ respOk s ∧ attempt < 3 then retry ()
      else if ¬ respOk s then
        (.errResp 502 (("HTTP ") ++ toString s ++ (". Retries exhausted.")), attempt)
      else
        match (if mode = ("posts") then (extractPosts page base).map (ScanData.posts base)
               else (extractNetworkCalls nenv page base mode).map (ScanData.netcalls base)) with
        | .error _ =>
            if attempt < 3 then retry ()
            else (.errResp 500 ("Extreme scan failed after retries."), attempt)
        | .ok d => (.jsonOk d, attempt)

/-- The recursion of v4 `attemptScan`, unrolled on structural fuel.
Retries only happen while `attempt < 3`, so from the entry point
(`attempt = 1`, fuel 3) the fuel never runs out and the fuel-0 value is
unreachable. -/
def attemptScanGo (penv : Nat → FetchAttempt) (nenv : Env) (base mode : String) :
    Nat → Nat → Outcome ScanData × Nat
  | 0, attempt => (.crashed ("unreachable: out of fuel"), attempt)
  | fuel + 1, attempt =>
      attemptStep penv nenv base mode attempt
        (fun _ => attemptScanGo penv nenv base mode fuel (attempt + 1))

/-- v4 `attemptScan`, entered at attempt 1; returns the response
together with the number of attempts performed. -/
def attemptScan (penv : Nat → FetchAttempt) (nenv : Env) (base mode : String)
    (attempt : Nat) : Outcome ScanData × Nat :=
  attemptScanGo penv nenv base mode 3 attempt

end V4

namespace V5

/-- The v5 response payload (`data`): posts, or network items with
`pageInfo`. -/
inductive ScanData where
  | posts : String → List PostItem → ScanData
  | netcalls : String → List Resource → PageInfo → ScanData
deriving DecidableEq, Repr

/-- One attempt of v5 `attemptScan` (src/unnamed/part_000 lines
449–522).  Statuses that are not ok retry and exhaust into a 502; but
any *thrown* error (abort, network error, extraction error, scan
failure) reaches the `catch` block, whose first statement
`clearTimeout(timeoutId)` references a `const` declared inside the
`try` block — a `ReferenceError`, so the handler crashes without
retrying and without responding.  `retry` is the recursive call. -/
def attemptStep (penv : Nat → FetchAttempt) (env : Env) (base mode : String)
    (attempt : Nat) (retry : Unit → Outcome ScanData × Nat) : Outcome ScanData × Nat :=
  if mode = ("posts") then
    match penv attempt with
    | .throwErr _ => (.crashed ("ReferenceError: timeoutId is not defined"), attempt)
    | .ok s page =>
        if ¬ respOk s ∧ attempt < 3 then retry ()
        else if ¬ respOk s then
          (.errResp 502 (("HTTP ") ++ toString s ++ (". Retries exhausted.")), attempt)
        else
          match extractPosts page base with
          | .error _ => (.crashed ("ReferenceError: timeoutId is not defined"), attempt)
          | .ok items => (.jsonOk (.posts base items), attempt)
  else
    match fullNetworkScan env base mode with
    | (.error _, _) => (.crashed ("ReferenceError: timeoutId is not defined"), attempt)
    | (.ok (rs, pinfo), _) => (.jsonOk (.netcalls base (emitItems mode rs) pinfo), attempt)

/-- The recursion of v5 `attemptScan`, unrolled on structural fuel (the
fuel-0 value is unreachable from the entry point, as for v4). -/
def attemptScanGo (penv : Nat → FetchAttempt) (env : Env) (base mode : String) :
    Nat → Nat → Outcome ScanData × Nat
  | 0, attempt => (.crashed ("unreachable: out of fuel"), attempt)
  | fuel + 1, attempt =>
      attemptStep penv env base mode attempt
        (fun _ => attemptScanGo penv env base mode fuel (attempt + 1))

/-- v5 `attemptScan`, entered at attempt 1. -/
def attemptScan (penv : Nat → FetchAttempt) (env : Env) (base mode : String)
    (attempt : Nat) : Outcome ScanData × Nat :=
  attemptScanGo penv env base mode 3 attempt

end V5

/- ### Decidable equality for `Except` results -/

instance {ε α : Type} [DecidableEq ε] [DecidableEq α] : DecidableEq (Except ε α) := fun x y =>
  match x, y with
  | .ok a, .ok b =>
      if h : a = b then isTrue (by rw [h]) else isFalse (fun hc => h (Except.ok.inj hc))
  | .error e, .error f =>
      if h : e = f then isTrue (by rw [h]) else isFalse (fun hc => h (Except.error.inj hc))
  | .ok _, .error _ => isFalse (fun hc => Except.noConfusion hc)
  | .error _, .ok _ => isFalse (fun hc => Except.noConfusion hc)

/- ### Concrete fixtures used by the claim theorems -/

def urlBase : String := ("https://ex.com/")

def emptyPage : Page :=
  { feedLinks := [], articleAnchors := [], jsonLdBlocks := [], ogUrl := none,
    ogTitle := none, anchors := [], inlineScripts := [], scriptSrcs := [] }

/-- A v4 environment in which every external fetch fails and no
rendering session is used. -/
def env4none : V4.Env :=
  { net := fun _ => none, sitemapLocs := none, robotsBody := none,
    beautifyFn := fun _ => none, pupReqs := [], pupPerf := [], pupFails := false }

def env1none : V1.Env := { net := fun _ => none }

/-- A page whose single inline script issues a fetch with an explicit
non-POST method. -/
def pageC1 : Page :=
  { emptyPage with inlineScripts := ["fetch(\"/x\", \x7bmethod: \"DELETE\"\x7d)"] }

/-- What the v4 scanner emits for `pageC1` under mode `post`: the
`'$1'` method resolution reads capture group 1, which for the
fetch-with-method pattern is the *URL*, so the method comes out as the
uppercased URL `/X`. -/
def itemC1 : NetItem :=
  { url := ("https://ex.com/x"), method := ("/X"),
    context := some ("fetch(\"/x\", \x7bmethod: \"DELETE\"\x7d)"), score := some 70 }

/-- A JSON-LD object declaring a BlogPosting at `/p/1`. -/
def jldC3 : JsonLdObj :=
  { atType := some ("BlogPosting")
    typeField := none
    urlField := some ("/p/1")
    mainEntityOfPage := none
    headline := some ("Title")
    nameField := none }

/-- A page on which JSON-LD and OpenGraph both target `/p/1`. -/
def pC3 : Page :=
  { emptyPage with
    jsonLdBlocks := [some [jldC3]]
    ogUrl := some ("/p/1")
    ogTitle := some ("X") }

def jliC3 : PostItem :=
  { title := ("Title"), href := ("https://ex.com/p/1"), source := ("json-ld"), score := 100 }

def ogiC3 : PostItem :=
  { title := ("X"), href := ("https://ex.com/p/1"), source := ("opengraph"), score := 70 }

def pageC4 : Page := { emptyPage with scriptSrcs := [("/a.js")] }

def itemC4 : NetItem :=
  { url := ("https://ex.com/a.js"), method := ("SCRIPT"),
    context := some ("External JS"), score := none }

/-- An anchor whose `href` the URL parser rejects. -/
def anchorC6 : Anchor :=
  { href := ("http://")
    text := ("hello")
    titleAttr := none
    inPostContainer := false }

def pC6 : Page := { emptyPage with anchors := [anchorC6] }

/-- Every top-level fetch attempt is aborted by the deadline. -/
def penvAbort : Nat → FetchAttempt := fun _ => .throwErr ("AbortError")

/-- Every top-level fetch attempt fails with a transient network
error. -/
def penvNetErr : Nat → FetchAttempt := fun _ => .throwErr ("FetchError")

def pinfoD : V5.PageInfo :=
  { title := (""), status := 200, loadTime := 0, memoryUsage := none }

/-- A v5 environment in which nothing fails and nothing is captured. -/
def env5empty : V5.Env :=
  { launchFails := false, gotoFails := false, events := [], perf := [],
    pageScriptSrcs := [], net := fun _ => none, specialResp := fun _ => none,
    beautifyFn := fun _ => none, pageInfo := pinfoD }

def env5goto : V5.Env := { env5empty with gotoFails := true }

/-- One captured XHR response. -/
def dupResp : V5.RawResponse :=
  { url := ("https://ex.com/api/save"), method := ("POST"), resourceType := ("XHR"),
    status := 200, contentLength := none }

/-- A session in which the page issued the same call twice. -/
def env5dup : V5.Env := { env5empty with events := [.response dupResp, .response dupResp] }

def itemDup : V5.Resource :=
  { category := ("Hidden APIs"), url := ("https://ex.com/api/save"), method := ("POST"),
    status := .num 200, size := 0, type := ("XHR"), source := ("dynamic"),
    score := some 100 }

def mkResp5 (i : Nat) : V5.RawResponse :=
  { url := ("https://ex.com/api/e") ++ toString i
    method := ("POST")
    resourceType := ("XHR")
    status := 200
    contentLength := none }

/-- A session during which 151 distinct POST calls were captured. -/
def env5many : V5.Env :=
  { env5empty with events := (List.range 151).map (fun i => .response (mkResp5 i)) }

def rsMany : List V5.Resource :=
  (List.range 151).map (fun i => V5.respToResource (mkResp5 i))

/- ### Invariant machinery shared by the claim proofs -/

/-- Invariants survive a left fold when each step preserves them. -/
theorem foldlPres {α β : Type} (P : α → Prop) (step : α → β → α)
    (h : ∀ a b, P a → P (step a b)) :
    ∀ (bs : List β) (a : α), P a → P (List.foldl step a bs) := by
  intro bs
  induction bs with
  | nil => intro a ha; exact ha
  | cons b bs ih => intro a ha; exact ih _ (h a b ha)

theorem addItem_nodup (l : List NetItem) (x : NetItem) (h : l.Nodup) :
    (addItem l x).Nodup := by
  unfold addItem
  split
  · exact h
  · next hx => simp [List.nodup_append, h, hx]

theorem scanCodeV4_nodup (base : String) (f : String → Nat) (p : V4.Pattern)
    (acc : List NetItem) (code : String) (h : acc.Nodup) :
    (V4.scanCode base f p acc code).Nodup := by
  unfold V4.scanCode
  dsimp only
  refine foldlPres (fun (l : List NetItem) => l.Nodup) _ ?_ _ _ h
  intro a m ha
  dsimp only
  split
  · exact ha
  · split
    · exact ha
    · exact addItem_nodup _ _ ha

theorem scanCodeV1_nodup (base : String) (p : V1.Pattern)
    (acc : List NetItem) (code : String) (h : acc.Nodup) :
    (V1.scanCode base p acc code).Nodup := by
  unfold V1.scanCode
  dsimp only
  refine foldlPres (fun (l : List NetItem) => l.Nodup) _ ?_ _ _ h
  intro a m ha
  dsimp only
  split
  · exact ha
  · split
    · exact ha
    · exact addItem_nodup _ _ ha

theorem robotsLines_nodup (base : String) :
    ∀ (lines : List String) (acc : List NetItem), acc.Nodup →
      (V4.robotsLines base lines acc).Nodup := by
  intro lines
  induction lines with
  | nil => intro acc h; exact h
  | cons line rest ih =>
      intro acc h
      unfold V4.robotsLines
      split
      · dsimp only
        split
        · exact h
        · exact ih _ (addItem_nodup _ _ h)
      · exact ih _ h

theorem sitemapStage_nodup (env : V4.Env) (acc : List NetItem) (h : acc.Nodup) :
    (V4.sitemapStage env acc).Nodup := by
  unfold V4.sitemapStage
  split
  · exact h
  · refine foldlPres (fun (l : List NetItem) => l.Nodup) _ ?_ _ _ h
    intro a loc ha
    dsimp only
    split
    · exact ha
    · exact addItem_nodup _ _ ha

theorem robotsStage_nodup (env : V4.Env) (base : String) (acc : List NetItem)
    (h : acc.Nodup) : (V4.robotsStage env base acc).Nodup := by
  unfold V4.robotsStage
  split
  · exact h
  · exact robotsLines_nodup _ _ _ h

theorem hiddenStage_nodup (env : V4.Env) (base : String) (pats : List V4.Pattern)
    (codes : List String) (acc : List NetItem) (h : acc.Nodup) :
    (V4.hiddenStage env base pats codes acc).Nodup := by
  unfold V4.hiddenStage
  refine foldlPres (fun (l : List NetItem) => l.Nodup) _ ?_ _ _ h
  intro a code ha
  dsimp only
  split
  · exact ha
  · exact foldlPres (fun (l : List NetItem) => l.Nodup) _
      (fun a p hp => scanCodeV4_nodup _ _ _ _ _ hp) _ _ ha

theorem scriptsStage_nodup (page : Page) (base : String) (acc : List NetItem)
    (h : acc.Nodup) : (V4.scriptsStage page base acc).Nodup := by
  unfold V4.scriptsStage
  refine foldlPres (fun (l : List NetItem) => l.Nodup) _ ?_ _ _ h
  intro a src ha
  dsimp only
  split
  · split
    · exact addItem_nodup _ _ ha
    · exact ha
  · exact ha

theorem condStage_nodup (c : Prop) [Decidable c] (f : List NetItem → List NetItem)
    (hf : ∀ l, l.Nodup → (f l).Nodup) (l : List NetItem) (h : l.Nodup) :
    (V4.condStage c f l).Nodup := by
  unfold V4.condStage
  split
  · exact hf _ h
  · exact h

theorem preSortItems_nodup (env : V4.Env) (page : Page) (base mode : String)
    (r : List NetItem) (h : V4.preSortItems env page base mode = .ok r) :
    r.Nodup := by
  unfold V4.preSortItems at h
  revert h
  split
  · intro h; cases h
  · intro h
    injection h with h
    rw [← h]
    refine condStage_nodup _ _ (fun l hl => scriptsStage_nodup _ _ _ hl) _ ?_
    refine condStage_nodup _ _ (fun l hl => hiddenStage_nodup _ _ _ _ _ hl) _ ?_
    refine condStage_nodup _ _ (fun l hl => robotsStage_nodup _ _ _ hl) _ ?_
    refine condStage_nodup _ _ (fun l hl => sitemapStage_nodup _ _ hl) _ ?_
    refine foldlPres (fun (l : List NetItem) => l.Nodup) _
      (fun a x ha => addItem_nodup a x ha) _ _ ?_
    unfold V4.staticPass
    exact foldlPres (fun (l : List NetItem) => l.Nodup) _
      (fun a p hp => foldlPres (fun (l : List NetItem) => l.Nodup) _
        (fun a c hc => scanCodeV4_nodup _ _ _ _ _ hc) _ _ hp) _ _ List.nodup_nil

theorem extractNetworkCallsV4_nodup (env : V4.Env) (page : Page) (base mode : String)
    (l : List NetItem) (h : V4.extractNetworkCalls env page base mode = .ok l) :
    l.Nodup := by
  unfold V4.extractNetworkCalls at h
  cases hps : V4.preSortItems env page base mode with
  | error e => rw [hps] at h; cases h
  | ok r =>
      rw [hps] at h
      injection h with h
      rw [← h]
      have hr := preSortItems_nodup env page base mode r hps
      have hperm := List.perm_insertionSort (fun a b => scoreD b ≤ scoreD a) r
      exact List.Nodup.sublist (List.take_sublist _ _) (hperm.symm.nodup hr)

/-- Registry well-formedness: keys are distinct and each value records
its key as its `href`. -/
def RegWF (reg : Registry) : Prop :=
  (reg.map Prod.fst).Nodup ∧ ∀ kv ∈ reg, (kv.2).href = kv.1

theorem setEntry_wf (reg : Registry) (k : String) (v : PostItem)
    (h : RegWF reg) (hv : v.href = k) : RegWF (setEntry reg k v) := by
  unfold setEntry
  split
  · constructor
    · have : (reg.map (fun kv => if kv.1 = k then (k, v) else kv)).map Prod.fst =
          reg.map Prod.fst := by
        rw [List.map_map]
        apply List.map_congr_left
        intro kv _
        dsimp only [Function.comp]
        split
        · next heq => rw [heq]
        · rfl
      rw [this]
      exact h.1
    · intro kv hkv
      obtain ⟨kv0, hkv0, heq⟩ := List.mem_map.mp hkv
      rw [← heq]
      split
      · exact hv
      · exact h.2 kv0 hkv0
  · next habs =>
    constructor
    · rw [List.map_append]
      rw [List.nodup_append]
      refine ⟨h.1, by simp, ?_⟩
      intro a ha
      simp only [List.map_cons, List.map_nil, List.mem_singleton]
      intro hak
      obtain ⟨kv0, hkv0, heq⟩ := List.mem_map.mp ha
      apply habs
      apply List.any_eq_true.mpr
      exact ⟨kv0, hkv0, by rw [heq, hak]; exact decide_eq_true rfl⟩
    · intro kv hkv
      rcases List.mem_append.mp hkv with h1 | h2
      · exact h.2 kv h1
      · rw [List.mem_singleton.mp h2]
        exact hv

theorem rssStage_wf (base : String) (links : List FeedLink) (reg : Registry)
    (h : RegWF reg) : RegWF (rssStage base links reg) := by
  unfold rssStage
  refine foldlPres RegWF _ ?_ _ _ h
  intro reg fl hr
  dsimp only
  split
  · exact hr
  · split
    · exact hr
    · exact setEntry_wf _ _ _ hr rfl

theorem articleStage_wf (base : String) (ancs : List Anchor) (reg : Registry)
    (h : RegWF reg) : RegWF (articleStage base ancs reg) := by
  unfold articleStage
  refine foldlPres RegWF _ ?_ _ _ h
  intro reg a hr
  dsimp only
  split
  · split
    · exact hr
    · split
      · exact hr
      · exact setEntry_wf _ _ _ hr rfl
  · exact hr

theorem jsonLdStage_wf (base : String) (blocks : List (Option (List JsonLdObj)))
    (reg : Registry) (h : RegWF reg) : RegWF (jsonLdStage base blocks reg) := by
  unfold jsonLdStage
  refine foldlPres RegWF _ ?_ _ _ h
  intro reg blk hr
  dsimp only
  split
  · exact hr
  · refine foldlPres RegWF _ ?_ _ _ hr
    intro reg obj hr2
    dsimp only
    split
    · exact hr2
    · split
      · exact hr2
      · split
        · exact hr2
        · split
          · exact hr2
          · split
            · exact hr2
            · exact setEntry_wf _ _ _ hr2 rfl

theorem ogStage_wf (base : String) (ogUrl ogTitle : Option String) (reg : Registry)
    (h : RegWF reg) : RegWF (ogStage base ogUrl ogTitle reg) := by
  unfold ogStage
  split
  · split
    · exact h
    · exact setEntry_wf _ _ _ h rfl
  · exact h

theorem heuristicStage_wf (base : String) :
    ∀ (ancs : List Anchor) (reg reg' : Registry), RegWF reg →
      heuristicStage base ancs reg = .ok reg' → RegWF reg' := by
  intro ancs
  induction ancs with
  | nil =>
      intro reg reg' h hh
      unfold heuristicStage at hh
      injection hh with hh
      rw [← hh]; exact h
  | cons a rest ih =>
      intro reg reg' h hh
      unfold heuristicStage at hh
      revert hh
      split
      · intro hh; exact ih _ _ h hh
      · dsimp only
        split
        · intro hh; cases hh
        · split
          · split
            · intro hh; exact ih _ _ h hh
            · intro hh
              refine ih _ _ ?_ hh
              exact setEntry_wf _ _ _ h rfl
          · intro hh; exact ih _ _ h hh

theorem extractPosts_href_nodup (page : Page) (base : String) (l : List PostItem)
    (h : extractPosts page base = .ok l) : (l.map PostItem.href).Nodup := by
  unfold extractPosts at h
  revert h
  split
  · intro h; cases h
  · next reg hreg =>
    intro h
    injection h with h
    have hwf : RegWF reg := by
      refine heuristicStage_wf base page.anchors _ reg ?_ hreg
      exact ogStage_wf _ _ _ _ (jsonLdStage_wf _ _ _ (articleStage_wf _ _ _
        (rssStage_wf _ _ _ ⟨List.nodup_nil, by intro kv hkv; cases hkv⟩)))
    rw [← h]
    have hvals : (reg.map Prod.snd).map PostItem.href = reg.map Prod.fst := by
      rw [List.map_map]
      apply List.map_congr_left
      intro kv hkv
      exact hwf.2 kv hkv
    have hsortperm := List.perm_insertionSort
      (fun a b : PostItem => b.score ≤ a.score) (reg.map Prod.snd)
    have htake := List.take_sublist 200
      (List.insertionSort (fun a b : PostItem => b.score ≤ a.score) (reg.map Prod.snd))
    have h1 : ((List.insertionSort (fun a b : PostItem => b.score ≤ a.score)
        (reg.map Prod.snd)).map PostItem.href).Nodup := by
      refine (((hsortperm.map PostItem.href).symm).nodup ?_)
      rw [hvals]
      exact hwf.1
    exact List.Nodup.sublist (htake.map PostItem.href) h1

/-- A key bound in the left list keeps its binding after appending. -/
theorem lookup_append_some (l1 l2 : List (String × PostItem)) (u : String) (v : PostItem)
    (h : List.lookup u l1 = some v) : List.lookup u (l1 ++ l2) = some v := by
  induction l1 with
  | nil => cases h
  | cons kv rest ih =>
      rw [List.cons_append]
      rw [List.lookup] at h ⊢
      revert h
      split
      · intro h; exact h
      · intro h; exact ih h

theorem heuristicStage_preserves (base : String) :
    ∀ (ancs : List Anchor) (reg reg' : Registry) (u : String) (v : PostItem),
      List.lookup u reg = some v → heuristicStage base ancs reg = .ok reg' →
      List.lookup u reg' = some v := by
  intro ancs
  induction ancs with
  | nil =>
      intro reg reg' u v hl hh
      unfold heuristicStage at hh
      injection hh with hh
      rw [← hh]; exact hl
  | cons a rest ih =>
      intro reg reg' u v hl hh
      unfold heuristicStage at hh
      revert hh
      split
      · intro hh; exact ih _ _ _ _ hl hh
      · dsimp only
        split
        · intro hh; cases hh
        · split
          · split
            · intro hh; exact ih _ _ _ _ hl hh
            · next hkey =>
                intro hh
                refine ih _ _ _ _ ?_ hh
                unfold setEntry
                split
                · next hany =>
                    exact absurd hany (by simpa [hasKey] using hkey)
                · exact lookup_append_some _ _ _ _ hl
          · intro hh; exact ih _ _ _ _ hl hh

/-- `calculateScore` never exceeds 1.0 (= 100 hundredths). -/
theorem calculateScore_le (c u m : String) : V5.calculateScore c u m ≤ 100 := by
  unfold V5.calculateScore
  exact Nat.min_le_right _ _

theorem emitItems_score (mode : String) (rs : List V5.Resource) (it : V5.Resource)
    (h : it ∈ V5.emitItems mode rs) : ∃ q, it.score = some q ∧ q ≤ 100 := by
  unfold V5.emitItems at h
  have h1 := List.take_subset _ _ h
  rw [List.mem_insertionSort] at h1
  obtain ⟨r, _, heq⟩ := List.mem_map.mp h1
  refine ⟨V5.calculateScore r.category r.url r.method, ?_, calculateScore_le _ _ _⟩
  rw [← heq]

theorem setEntry_scores (reg : Registry) (k : String) (v : PostItem)
    (h : ∀ kv ∈ reg, (kv.2).score ≤ 100) (hv : v.score ≤ 100) :
    ∀ kv ∈ setEntry reg k v, (kv.2).score ≤ 100 := by
  unfold setEntry
  split
  · intro kv hkv
    obtain ⟨kv0, hkv0, heq⟩ := List.mem_map.mp hkv
    rw [← heq]
    split
    · exact hv
    · exact h kv0 hkv0
  · intro kv hkv
    rcases List.mem_append.mp hkv with h1 | h2
    · exact h kv h1
    · rw [List.mem_singleton.mp h2]; exact hv

theorem rssStage_scores (base : String) (links : List FeedLink) (reg : Registry)
    (h : ∀ kv ∈ reg, (kv.2).score ≤ 100) :
    ∀ kv ∈ rssStage base links reg, (kv.2).score ≤ 100 := by
  unfold rssStage
  refine foldlPres (fun (reg : Registry) => ∀ kv ∈ reg, (kv.2).score ≤ 100) _ ?_ _ _ h
  intro reg fl hr
  dsimp only
  split
  · exact hr
  · split
    · exact hr
    · exact setEntry_scores _ _ _ hr (by norm_num)

theorem articleStage_scores (base : String) (ancs : List Anchor) (reg : Registry)
    (h : ∀ kv ∈ reg, (kv.2).score ≤ 100) :
    ∀ kv ∈ articleStage base ancs reg, (kv.2).score ≤ 100 := by
  unfold articleStage
  refine foldlPres (fun (reg : Registry) => ∀ kv ∈ reg, (kv.2).score ≤ 100) _ ?_ _ _ h
  intro reg a hr
  dsimp only
  split
  · split
    · exact hr
    · split
      · exact hr
      · exact setEntry_scores _ _ _ hr (by norm_num)
  · exact hr

theorem jsonLdStage_scores (base : String) (blocks : List (Option (List JsonLdObj)))
    (reg : Registry) (h : ∀ kv ∈ reg, (kv.2).score ≤ 100) :
    ∀ kv ∈ jsonLdStage base blocks reg, (kv.2).score ≤ 100 := by
  unfold jsonLdStage
  refine foldlPres (fun (reg : Registry) => ∀ kv ∈ reg, (kv.2).score ≤ 100) _ ?_ _ _ h
  intro reg blk hr
  dsimp only
  split
  · exact hr
  · refine foldlPres (fun (reg : Registry) => ∀ kv ∈ reg, (kv.2).score ≤ 100) _ ?_ _ _ hr
    intro reg obj hr2
    dsimp only
    split
    · exact hr2
    · split
      · exact hr2
      · split
        · exact hr2
        · split
          · exact hr2
          · split
            · exact hr2
            · exact setEntry_scores _ _ _ hr2 (by norm_num)

theorem ogStage_scores (base : String) (ogUrl ogTitle : Option String) (reg : Registry)
    (h : ∀ kv ∈ reg, (kv.2).score ≤ 100) :
    ∀ kv ∈ ogStage base ogUrl ogTitle reg, (kv.2).score ≤ 100 := by
  unfold ogStage
  split
  · split
    · exact h
    · exact setEntry_scores _ _ _ h (by norm_num)
  · exact h

theorem heuristicStage_scores (base : String) :
    ∀ (ancs : List Anchor) (reg reg' : Registry),
      (∀ kv ∈ reg, (kv.2).score ≤ 100) → heuristicStage base ancs reg = .ok reg' →
      ∀ kv ∈ reg', (kv.2).score ≤ 100 := by
  intro ancs
  induction ancs with
  | nil =>
      intro reg reg' h hh
      unfold heuristicStage at hh
      injection hh with hh
      rw [← hh]; exact h
  | cons a rest ih =>
      intro reg reg' h hh
      unfold heuristicStage at hh
      revert hh
      split
      · intro hh; exact ih _ _ h hh
      · dsimp only
        split
        · intro hh; cases hh
        · split
          · split
            · intro hh; exact ih _ _ h hh
            · intro hh
              refine ih _ _ ?_ hh
              exact setEntry_scores _ _ _ h (by norm_num)
          · intro hh; exact ih _ _ h hh

theorem extractPosts_scores (page : Page) (base : String) (l : List PostItem)
    (h : extractPosts page base = .ok l) : ∀ p ∈ l, p.score ≤ 100 := by
  unfold extractPosts at h
  revert h
  split
  · intro h; cases h
  · next reg hreg =>
    intro h
    injection h with h
    have hall : ∀ kv ∈ reg, (kv.2).score ≤ 100 := by
      refine heuristicStage_scores base page.anchors _ reg ?_ hreg
      exact ogStage_scores _ _ _ _ (jsonLdStage_scores _ _ _ (articleStage_scores _ _ _
        (rssStage_scores _ _ _ (by intro kv hkv; cases hkv))))
    rw [← h]
    intro p hp
    have h1 := List.take_subset _ _ hp
    rw [List.mem_insertionSort] at h1
    obtain ⟨kv, hkv, heq⟩ := List.mem_map.mp h1
    rw [← heq]
    exact hall kv hkv

/-- Output caps. -/
theorem extractPosts_len (page : Page) (base : String) (l : List PostItem)
    (h : extractPosts page base = .ok l) : l.length ≤ 200 := by
  unfold extractPosts at h
  revert h
  split
  · intro h; cases h
  · intro h
    injection h with h
    rw [← h]
    exact List.length_take_le _ _

theorem extractNetworkCallsV1_len (env : V1.Env) (page : Page) (base mode : String) :
    (V1.extractNetworkCalls env page base mode).length ≤ 100 := by
  unfold V1.extractNetworkCalls
  dsimp only
  exact List.length_take_le _ _

theorem extractNetworkCallsV4_len (env : V4.Env) (page : Page) (base mode : String)
    (l : List NetItem) (h : V4.extractNetworkCalls env page base mode = .ok l) :
    l.length ≤ 150 := by
  unfold V4.extractNetworkCalls at h
  cases hps : V4.preSortItems env page base mode with
  | error e => rw [hps] at h; cases h
  | ok r =>
      rw [hps] at h
      injection h with h
      rw [← h]
      exact List.length_take_le _ _

theorem emitItems_len (mode : String) (rs : List V5.Resource) :
    (V5.emitItems mode rs).length ≤ 200 := by
  unfold V5.emitItems
  exact List.length_take_le _ _

/-- Success-path teardown of the v5 rendering session. -/
theorem v5_scan_closes (env : V5.Env) (base mode : String)
    (h1 : env.launchFails = false) (h2 : env.gotoFails = false) :
    (V5.fullNetworkScan env base mode).2 = { launched := true, closed := true } := by
  simp [V5.fullNetworkScan, h1, h2]

/-- Navigation-failure path of the v5 rendering session: the browser is
left open. -/
theorem v5_goto_leaks (env : V5.Env) (base mode : String)
    (h1 : env.launchFails = false) (h2 : env.gotoFails = true) :
    (V5.fullNetworkScan env base mode).2 = { launched := true, closed := false } := by
  simp [V5.fullNetworkScan, h1, h2]

/-- The request gate answers 400 exactly when the method is POST and
URL normalization fails. -/
theorem gate_iff (m : String) (body : JSVal) :
    handleGate m body = .invalidUrl ↔ (m = ("POST") ∧ normalizeUrl body = none) := by
  unfold handleGate
  by_cases hm : m = ("POST")
  · simp only [hm]
    cases hnorm : normalizeUrl body with
    | none => simp
    | some s => simp
  · simp [hm]

/- ### Further witness fixtures -/

/-- A dynamically captured POST resource. -/
def resW : V5.Resource :=
  { category := ("Other"), url := ("https://ex.com/w"), method := ("POST"),
    status := .num 200, size := 0, type := ("Doc"), source := ("dynamic") }

/-- `resW` as emitted under mode `post` (score 0.50 + 0.10 for POST). -/
def itW : V5.Resource := { resW with score := some 60 }

/-- A registry already holding the structured-data entry for `/p/1`. -/
def regW : Registry := [(("https://ex.com/p/1"), jliC3)]

/-- A heuristic-qualifying anchor targeting the same URL. -/
def anchorW : Anchor :=
  { href := ("/p/1")
    text := ("tt")
    titleAttr := none
    inPostContainer := true }

/- ### The claims -/

/-- C1 counterexample: under mode `post`, the v4 scanner emits an item
whose method is not POST — the inline script
`fetch("/x", {method: "DELETE"})` yields an item with method `/X`
(the `'$1'` method specifier resolves `match[1]`, the URL capture of
the fetch-with-method pattern, and uppercases it), refuting "every
emitted network-call item has method POST" on the cited code. -/
theorem C1_counterexample :
    V4.extractNetworkCalls env4none pageC1 urlBase ("post") = .ok [itemC1] ∧
      itemC1.method ≠ ("POST") := by
  constructor
  · decide
  · decide

/-- C1: as amended — in the v5 revision the final mode filter guarantees
the mode predicate: every item emitted under mode `post` has method
POST, and every item emitted under mode `scripts` has the
external-script category `JS/Scripts`. -/
theorem C1_theorem : ∀ (rs : List V5.Resource) (it : V5.Resource),
    (it ∈ V5.emitItems ("post") rs → it.method = ("POST")) ∧
    (it ∈ V5.emitItems ("scripts") rs → it.category = ("JS/Scripts")) := by
  intro rs it
  constructor
  · intro hmem
    unfold V5.emitItems at hmem
    have h1 := List.take_subset _ _ hmem
    rw [List.mem_insertionSort] at h1
    obtain ⟨r, hr, heq⟩ := List.mem_map.mp h1
    have hfb : V5.filterByMode ("post") rs = rs.filter (fun r => r.method = ("POST")) := rfl
    rw [hfb] at hr
    have h2 := (List.mem_filter.mp hr).2
    simp only [decide_eq_true_eq] at h2
    rw [← heq]
    exact h2
  · intro hmem
    unfold V5.emitItems at hmem
    have h1 := List.take_subset _ _ hmem
    rw [List.mem_insertionSort] at h1
    obtain ⟨r, hr, heq⟩ := List.mem_map.mp h1
    have hfb : V5.filterByMode ("scripts") rs =
        rs.filter (fun r => r.category = ("JS/Scripts")) := rfl
    rw [hfb] at hr
    have h2 := (List.mem_filter.mp hr).2
    simp only [decide_eq_true_eq] at h2
    rw [← heq]
    exact h2

/-- C1 witness: a captured POST resource is emitted under mode `post`
and indeed carries method POST. -/
theorem C1_theorem_witness :
    itW ∈ V5.emitItems ("post") [resW] ∧ itW.method = ("POST") :=
  ⟨by decide, (C1_theorem [resW] itW).1 (by decide)⟩

/-- C2 counterexample: the v5 network path performs no dedup at all —
a session in which the page issued the same POST twice emits two items
that agree on URL, method and origin (indeed are identical), so two
emitted items share a fingerprint. -/
theorem C2_counterexample :
    (V5.attemptScan penvNetErr env5dup urlBase ("post") 1).1 =
      .jsonOk (.netcalls urlBase [itemDup, itemDup] pinfoD) ∧
    ¬ ([itemDup, itemDup].Pairwise (fun a b =>
        ¬(a.url = b.url ∧ a.method = b.method ∧ a.source = b.source))) := by
  constructor
  · decide
  · decide

/-- C2: as amended — the v4 network scanner dedups by the full
serialized item, so its output never contains two identical items; and
content extraction dedups by URL, so no two emitted content items share
an href. -/
theorem C2_theorem :
    (∀ (env : V4.Env) (page : Page) (base mode : String) (l : List NetItem),
      V4.extractNetworkCalls env page base mode = .ok l → l.Nodup) ∧
    (∀ (page : Page) (base : String) (l : List PostItem),
      extractPosts page base = .ok l → (l.map PostItem.href).Nodup) :=
  ⟨extractNetworkCallsV4_nodup, extractPosts_href_nodup⟩

/-- C2 witness: both clauses applied at concrete runs. -/
theorem C2_theorem_witness :
    [itemC1].Nodup ∧ ([ogiC3].map PostItem.href).Nodup :=
  ⟨C2_theorem.1 env4none pageC1 urlBase ("post") [itemC1] (by decide),
   C2_theorem.2 pC3 urlBase [ogiC3] (by decide)⟩

/-- C3 counterexample: the JSON-LD detector registers `/p/1` at score
1.0, but the OpenGraph detector then overwrites that entry
unconditionally, so the emitted item for `/p/1` has score 0.7 — the
registry did not retain the higher-scoring entry. -/
theorem C3_counterexample :
    jsonLdStage urlBase pC3.jsonLdBlocks
        (articleStage urlBase pC3.articleAnchors (rssStage urlBase pC3.feedLinks [])) =
      [(("https://ex.com/p/1"), jliC3)] ∧
    extractPosts pC3 urlBase = .ok [ogiC3] ∧
    ogiC3.score < jliC3.score := by
  refine ⟨by decide, by decide, by decide⟩

/-- C3: as amended — the heuristic detector (the last pass) never
displaces an existing registry entry: whatever any earlier detector
registered under a URL is still the entry for that URL afterwards (so a
structured-data entry beats a heuristic one; the social-meta detector,
by contrast, overwrites unconditionally, as the counterexample shows). -/
theorem C3_theorem :
    ∀ (base : String) (ancs : List Anchor) (reg reg' : Registry) (u : String)
      (v : PostItem), List.lookup u reg = some v →
      heuristicStage base ancs reg = .ok reg' → List.lookup u reg' = some v :=
  heuristicStage_preserves

/-- C3 witness: a heuristic anchor hits an already-registered URL and
the structured-data entry survives. -/
theorem C3_theorem_witness :
    heuristicStage urlBase [anchorW] regW = .ok regW ∧
    List.lookup ("https://ex.com/p/1") regW = some jliC3 :=
  ⟨by decide,
   C3_theorem urlBase [anchorW] regW regW ("https://ex.com/p/1") jliC3
     (by decide) (by decide)⟩

/-- C4 counterexample: the v1 revision emits network-call items without
any score — mode `scripts` on a page with one external script yields an
item whose `score` field is absent. -/
theorem C4_counterexample :
    V1.extractNetworkCalls env1none pageC4 urlBase ("scripts") = [itemC4] ∧
      itemC4.score = none := by
  constructor
  · decide
  · decide

/-- C4: as amended — scores are modelled in hundredths of the source's
decimal literals, so "score ∈ [0,1]" reads "score ≤ 100" (naturals are
nonnegative): `calculateScore` is bounded by 1.0, every v5 network-call
emission carries such a score, and every emitted content item's score
is bounded by 1.0. -/
theorem C4_theorem :
    (∀ c u m : String, V5.calculateScore c u m ≤ 100) ∧
    (∀ (mode : String) (rs : List V5.Resource) (it : V5.Resource),
      it ∈ V5.emitItems mode rs → ∃ q, it.score = some q ∧ q ≤ 100) ∧
    (∀ (page : Page) (base : String) (l : List PostItem),
      extractPosts page base = .ok l → ∀ p ∈ l, p.score ≤ 100) :=
  ⟨calculateScore_le, emitItems_score, extractPosts_scores⟩

/-- C4 witness: the second and third clauses applied at concrete runs. -/
theorem C4_theorem_witness :
    (∃ q, itW.score = some q ∧ q ≤ 100) ∧ (∀ p ∈ [ogiC3], p.score ≤ 100) :=
  ⟨C4_theorem.2.1 ("post") [resW] itW (by decide),
   C4_theorem.2.2 pC3 urlBase [ogiC3] (by decide)⟩

set_option maxRecDepth 40000 in
/-- C5 counterexample: the v5 network path caps at 200, not 100–150 — a
session with 151 captured POST calls emits 151 items under mode
`post`. -/
theorem C5_counterexample :
    V5.fullNetworkScan env5many urlBase ("post") =
      (.ok (rsMany, pinfoD), { launched := true, closed := true }) ∧
    (V5.attemptScan penvNetErr env5many urlBase ("post") 1).1 =
      .jsonOk (.netcalls urlBase (V5.emitItems ("post") rsMany) pinfoD) ∧
    150 < (V5.emitItems ("post") rsMany).length := by
  refine ⟨by decide, by decide, by decide⟩

/-- C5: as amended — each revision caps its output, but at different
sizes: content at 200; network calls at 100 in v1, 150 in v4, and 200
(not 100–150) in v5. -/
theorem C5_theorem :
    (∀ (page : Page) (base : String) (l : List PostItem),
      extractPosts page base = .ok l → l.length ≤ 200) ∧
    (∀ (env : V1.Env) (page : Page) (base mode : String),
      (V1.extractNetworkCalls env page base mode).length ≤ 100) ∧
    (∀ (env : V4.Env) (page : Page) (base mode : String) (l : List NetItem),
      V4.extractNetworkCalls env page base mode = .ok l → l.length ≤ 150) ∧
    (∀ (mode : String) (rs : List V5.Resource), (V5.emitItems mode rs).length ≤ 200) :=
  ⟨extractPosts_len, extractNetworkCallsV1_len, extractNetworkCallsV4_len, emitItems_len⟩

/-- C5 witness: the hypothesis-bearing clauses applied at concrete
runs. -/
theorem C5_theorem_witness :
    ([ogiC3] : List PostItem).length ≤ 200 ∧ ([itemC1] : List NetItem).length ≤ 150 :=
  ⟨C5_theorem.1 pC3 urlBase [ogiC3] (by decide),
   C5_theorem.2.2.1 env4none pageC1 urlBase ("post") [itemC1] (by decide)⟩

/-- C6: the heuristic detector resolves every anchor href *outside* any
`try` (unlike its four sibling detectors), so one malformed href makes
`extractPosts` throw — the candidate is not skipped locally and the
failure escalates to the request level; the same page without the bad
anchor succeeds. -/
theorem C6_theorem :
    extractPosts pC6 urlBase = .error ("Invalid URL") ∧
    extractPosts emptyPage urlBase = .ok [] := by
  constructor
  · decide
  · decide

/-- C7 counterexample: a request whose deadline elapses on every
attempt is retried — the v4 handler performs 3 fetch attempts (not 1)
before surfacing the timeout, refuting "terminal, not retried". -/
theorem C7_counterexample :
    V4.attemptScan penvAbort env4none urlBase ("posts") 1 =
      (.errResp 408 ("Extreme scan failed after retries."), 3) ∧ (3 : Nat) ≠ 1 := by
  constructor
  · decide
  · decide

/-- C7: as amended — in the v4 revision an elapsed deadline aborts the
attempt and is retried like any other failure; when all 3 attempts are
aborted the request fails with the distinct timeout status 408 and an
error payload (no partial results). -/
theorem C7_theorem (penv : Nat → FetchAttempt) (nenv : V4.Env) (base mode : String)
    (h1 : penv 1 = .throwErr ("AbortError")) (h2 : penv 2 = .throwErr ("AbortError"))
    (h3 : penv 3 = .throwErr ("AbortError")) :
    V4.attemptScan penv nenv base mode 1 =
      (.errResp 408 ("Extreme scan failed after retries."), 3) := by
  simp [V4.attemptScan, V4.attemptScanGo, V4.attemptStep, h1, h2, h3]

/-- C7 witness: the theorem applied to the all-abort environment. -/
theorem C7_theorem_witness :
    V4.attemptScan penvAbort env4none urlBase ("scan") 1 =
      (.errResp 408 ("Extreme scan failed after retries."), 3) :=
  C7_theorem penvAbort env4none urlBase ("scan") rfl rfl rfl

/-- C8: a transient failure of the first fetch attempt in the v5
revision is *not* retried and yields no 502 — the `catch` block's
`clearTimeout(timeoutId)` references a `const` scoped to the `try`
block, so the handler throws a `ReferenceError` after a single attempt
and never responds. -/
theorem C8_theorem :
    V5.attemptScan penvNetErr env5empty urlBase ("posts") 1 =
      (.crashed ("ReferenceError: timeoutId is not defined"), 1) := by
  decide

/-- C9 counterexample: when navigation fails, `fullNetworkScan` throws
with the browser still open — the session is launched but never closed,
refuting "always torn down on every path". -/
theorem C9_counterexample :
    V5.fullNetworkScan env5goto urlBase ("post") =
      (.error ("navigation failed"), { launched := true, closed := false }) := by
  decide

/-- C9: as amended — the rendering session is closed on the success
path (launch and navigation succeed), but is leaked whenever navigation
fails after a successful launch. -/
theorem C9_theorem :
    (∀ (env : V5.Env) (base mode : String), env.launchFails = false →
      env.gotoFails = false →
      (V5.fullNetworkScan env base mode).2 = { launched := true, closed := true }) ∧
    (∀ (env : V5.Env) (base mode : String), env.launchFails = false →
      env.gotoFails = true →
      (V5.fullNetworkScan env base mode).2 = { launched := true, closed := false }) :=
  ⟨v5_scan_closes, v5_goto_leaks⟩

/-- C9 witness: both clauses at concrete environments. -/
theorem C9_theorem_witness :
    (V5.fullNetworkScan env5empty urlBase ("post")).2 =
      { launched := true, closed := true } ∧
    (V5.fullNetworkScan env5goto urlBase ("post")).2 =
      { launched := true, closed := false } :=
  ⟨C9_theorem.1 env5empty urlBase ("post") rfl rfl,
   C9_theorem.2 env5goto urlBase ("post") rfl rfl⟩

/-- C10: the handler responds 400 exactly when the method is POST and
URL normalization fails; a scheme-less host is prefixed with `https://`
and accepted; a missing or non-string `url` makes `normalizeUrl` return
null inside its `try`/`catch` (no uncaught exception), yielding the
400. -/
theorem C10_theorem :
    (∀ (m : String) (body : JSVal),
      handleGate m body = .invalidUrl ↔ (m = ("POST") ∧ normalizeUrl body = none)) ∧
    normalizeUrl (.str ("example.com")) = some ("https://example.com/") ∧
    normalizeUrl .undef = none ∧
    normalizeUrl .other = none ∧
    handleGate ("POST") .undef = .invalidUrl :=
  ⟨gate_iff, by decide, rfl, rfl, by decide⟩

/-- C10 witness: the iff applied at a malformed URL string. -/
theorem C10_theorem_witness :
    handleGate ("POST") (.str ("http://")) = .invalidUrl :=
  (C10_theorem.1 ("POST") (.str ("http://"))).mpr ⟨rfl, by decide⟩
